import Mathlib

/-!
# Ticket / inventory workflow of `src/scr/App.jsx`

A shallow embedding of the event handlers of the `App` component.

* React state (`useState` cells) is the record `AppState`; a handler is a
  function from the state of the render it closes over to the next state.
* The Firestore collections `tickets` and `inventory` are the record `Gateway`;
  every `await`ed SDK call is a step on it that either succeeds or throws.
  Whether the transport fails, which id `addDoc` assigns and what
  `new Date().toISOString()` returns are inputs of the handler (`Env`).
* JavaScript numbers are IEEE 754 doubles. A finite double is modelled as the
  rational it denotes (`ℚ`), a stock count as the integer it denotes (`Int`),
  and every arithmetic operation of the source rounds its exact result to the
  nearest double, ties to even (`roundDouble`, `roundInt`). `NaN`, the
  infinities and results beyond the largest double are outside the model.
* Every handler returns the Gateway calls it issued, in order, and the
  `console.error` lines it printed.
* The dashboard statistics are functions of the `tickets` mirror; each is
  compared with a reference definition written from the specification.
-/

namespace DigiReparaciones

/-! ## Numbers

The source computes with doubles: `currentRepuesto.stock - 1` (line 134) and the
two `reduce` sums (lines 237-238). A double has 53 significant binary digits,
so an integer of magnitude up to `2 ^ 53 = 9007199254740992` is a double, and
beyond that only every second, fourth, ... integer is. -/

/-- The binary logarithm of `n`, rounded down, by `fuel` halvings. -/
def floorLog2Fuel : Nat → Nat → Nat
  | 0, _ => 0
  | fuel + 1, n => if n < 2 then 0 else floorLog2Fuel fuel (n / 2) + 1

/-- The binary logarithm of `n`, rounded down: the position of its leading binary
digit (0 for `n = 0`). -/
def floorLog2 (n : Nat) : Nat :=
  floorLog2Fuel n n

/-- The quotient `p / q` rounded to the nearest natural number, a tie going to the
even neighbour. -/
def roundHalfEven (p q : Nat) : Nat :=
  if 2 * (p % q) < q then p / q
  else if q < 2 * (p % q) then p / q + 1
  else if (p / q) % 2 = 0 then p / q
  else p / q + 1

/-- The double nearest to the natural number `m`, ties to even: `m` itself up to
`2 ^ 53`, and beyond that the nearest multiple of the unit in the last place,
`2 ^ (floorLog2 m - 52)`. -/
def roundNat (m : Nat) : Nat :=
  if m ≤ 9007199254740992 then m
  else roundHalfEven m (2 ^ (floorLog2 m - 52)) * 2 ^ (floorLog2 m - 52)

/-- The double nearest to the integer `n`, ties to even. -/
def roundInt (n : Int) : Int :=
  if n < 0 then -((roundNat n.natAbs : Nat) : Int) else ((roundNat n.natAbs : Nat) : Int)

/-- The exponent of the unit in the last place of the double nearest to the
positive rational `a / b`: 52 below the binary logarithm of `a / b`, and `-1074`
in the subnormal range. -/
def ulpExponent (a b : Nat) : Int :=
  max (((floorLog2 a : Int) - (floorLog2 b : Int)
        - (if b * 2 ^ floorLog2 a ≤ a * 2 ^ floorLog2 b then 0 else 1)) - 52) (-1074)

/-- The double nearest to the positive rational `a / b`, ties to even. -/
def roundFraction (a b : Nat) : ℚ :=
  if 0 ≤ ulpExponent a b then
    ((roundHalfEven a (b * 2 ^ (ulpExponent a b).toNat) * 2 ^ (ulpExponent a b).toNat : Nat) : ℚ)
  else
    mkRat (roundHalfEven (a * 2 ^ (-ulpExponent a b).toNat) b) (2 ^ (-ulpExponent a b).toNat)

/-- The double nearest to the rational `x`, ties to even. -/
def roundDouble (x : ℚ) : ℚ :=
  if x.den = 1 then ((roundInt x.num : Int) : ℚ)
  else if x.num < 0 then -roundFraction x.num.natAbs x.den
  else roundFraction x.num.natAbs x.den

/-- The operator `-` of the source on two integer-valued doubles. -/
def jsSub (a b : Int) : Int :=
  roundInt (a - b)

/-- The operator `+` of the source on two doubles. -/
def jsAdd (a b : ℚ) : ℚ :=
  roundDouble (a + b)

/-! ## Data model -/

/-- An element of the `inventory` mirror: `{ id: doc.id, ...doc.data() }` for a
document written by `handleAddInventoryItem` (`nombre`, `stock`, `costo`). -/
structure Item where
  id : String
  nombre : String
  stock : Int
  costo : ℚ
  deriving DecidableEq, Repr

/-- The `formData` state cell (App.jsx lines 30-39), which is also the record
that `handleAddTicket` spreads into the document it writes. -/
structure FormData where
  cliente : String
  dispositivo : String
  problema : String
  repuestoId : String
  estado : String
  fechaCreacion : String
  costoRepuesto : ℚ
  precioReparacion : ℚ
  deriving DecidableEq, Repr

/-- The `inventoryFormData` state cell (App.jsx lines 40-44). -/
structure InventoryFormData where
  nombre : String
  stock : Int
  costo : ℚ
  deriving DecidableEq, Repr

/-- An element of the `tickets` mirror: `{ id: doc.id, ...doc.data() }`. The two
numeric fields may be missing from a stored document (the dashboard reads them
as `ticket.costoRepuesto || 0`), hence `Option`. -/
structure Ticket where
  id : String
  cliente : String
  dispositivo : String
  problema : String
  repuestoId : String
  estado : String
  fechaCreacion : String
  costoRepuesto : Option ℚ
  precioReparacion : Option ℚ
  deriving DecidableEq, Repr

/-- The document stored for a record written with `addDoc`, under the id the
Gateway assigned to it. -/
def Ticket.ofRecord (id : String) (r : FormData) : Ticket :=
  { id := id
    cliente := r.cliente
    dispositivo := r.dispositivo
    problema := r.problema
    repuestoId := r.repuestoId
    estado := r.estado
    fechaCreacion := r.fechaCreacion
    costoRepuesto := some r.costoRepuesto
    precioReparacion := some r.precioReparacion }

/-- The value both `useState({...})` (lines 30-39) and the reset after a
successful creation (lines 146-155) give to `formData`; `now` is the value of
`new Date().toISOString()` at that moment. -/
def initialFormData (now : String) : FormData :=
  { cliente := ""
    dispositivo := ""
    problema := ""
    repuestoId := ""
    estado := "Pendiente"
    fechaCreacion := now
    costoRepuesto := 0
    precioReparacion := 0 }

/-- The React state of `App` that the handlers read or write, together with the
module-level `db` handle (`dbHandle = false` when `initializeApp` threw). -/
structure AppState where
  tickets : List Ticket
  inventory : List Item
  userId : Option String
  dbHandle : Bool
  formData : FormData
  showTicketModal : Bool
  inventoryFormData : InventoryFormData
  showInventoryModal : Bool
  historySearchTerm : String
  clientHistory : List Ticket
  deriving DecidableEq, Repr

/-- The guard `if (!userId || !db) return;` lets a handler through exactly when
`userId` is a non-empty string and `db` is defined. -/
def AppState.sessionReady (s : AppState) : Bool :=
  (match s.userId with
   | some u => decide (u ≠ "")
   | none => false) && s.dbHandle

/-! ## The Persistence Gateway -/

/-- Modelled from the spec: the Persistence Gateway of section 6 (the Firestore
SDK, which is not part of the repository). Its state is the content of the two
per-user collections. -/
structure Gateway where
  tickets : List Ticket
  inventory : List Item
  deriving DecidableEq, Repr

/-- Modelled from the spec: the failures a Gateway call can raise (section 6:
`WriteError`, `NotFound`; section 7: `ReadError`). -/
inductive GatewayError where
  | writeError
  | notFound
  | readError
  deriving DecidableEq, Repr

/-- Modelled from the spec: `update(collection, id, partialRecord)` on the
inventory collection with the record `{ stock }`. It fails with `WriteError`
when the transport fails, with `NotFound` when no document has that id, and
otherwise replaces the `stock` field of that document and nothing else. -/
def Gateway.updateStock (transportOk : Bool) (id : String) (stock : Int) (db : Gateway) :
    Except GatewayError Gateway :=
  if !transportOk then .error .writeError
  else if db.inventory.any (fun i => decide (i.id = id)) then
    .ok { db with
          inventory := db.inventory.map
            (fun i => if i.id = id then { i with stock := stock } else i) }
  else .error .notFound

/-- Modelled from the spec: `create(collection, record) -> id` on the ticket
collection. It fails with `WriteError` when the transport fails and otherwise
appends the record under the id the Gateway assigns. -/
def Gateway.createTicket (transportOk : Bool) (newId : String) (r : FormData) (db : Gateway) :
    Except GatewayError Gateway :=
  if !transportOk then .error .writeError
  else .ok { db with tickets := db.tickets ++ [Ticket.ofRecord newId r] }

/-- Modelled from the spec: `update(collection, id, partialRecord)` on the ticket
collection with the record `{ estado }`. -/
def Gateway.updateEstado (transportOk : Bool) (id : String) (estado : String) (db : Gateway) :
    Except GatewayError Gateway :=
  if !transportOk then .error .writeError
  else if db.tickets.any (fun t => decide (t.id = id)) then
    .ok { db with
          tickets := db.tickets.map
            (fun t => if t.id = id then { t with estado := estado } else t) }
  else .error .notFound

/-- Modelled from the spec: `delete(collection, id)` on the ticket collection. It
fails with `WriteError` when the transport fails, with `NotFound` when no
document has that id, and otherwise removes that document and nothing else. -/
def Gateway.deleteTicket (transportOk : Bool) (id : String) (db : Gateway) :
    Except GatewayError Gateway :=
  if !transportOk then .error .writeError
  else if db.tickets.any (fun t => decide (t.id = id)) then
    .ok { db with tickets := db.tickets.filter (fun t => decide (t.id ≠ id)) }
  else .error .notFound

/-! ## Handlers -/

/-- What the outside world decides during one handler call. -/
structure Env where
  /-- The value of `new Date().toISOString()`. -/
  now : String
  /-- The id `addDoc` assigns. -/
  newId : String
  /-- Whether the transport carries `updateDoc(repuestoDocRef, ...)`. -/
  decrementOk : Bool
  /-- Whether the transport carries `addDoc(...)`. -/
  createOk : Bool
  /-- Whether the transport carries `updateDoc(ticketDocRef, ...)`. -/
  updateOk : Bool
  /-- Whether the transport carries `deleteDoc(...)`. -/
  deleteOk : Bool
  /-- Whether the transport carries `getDocs(q)`. -/
  queryOk : Bool
  deriving DecidableEq, Repr

/-- A call on the Gateway issued by a handler. -/
inductive Call where
  /-- The call `updateDoc(doc(db, .../inventory, id), { stock })`. -/
  | updateStock (id : String) (stock : Int)
  /-- The call `addDoc(collection(db, .../tickets), record)`. -/
  | addTicket (record : FormData)
  /-- The call `updateDoc(doc(db, .../tickets, id), { estado })`. -/
  | updateEstado (id : String) (estado : String)
  /-- The call `deleteDoc(doc(db, .../tickets, id))`. -/
  | deleteTicket (id : String)
  /-- The call `addDoc(collection(db, .../inventory), record)`. -/
  | addItem (record : InventoryFormData)
  /-- The call `deleteDoc(doc(db, .../inventory, id))`. -/
  | deleteItem (id : String)
  /-- The call `getDocs(query(collection(db, .../tickets), where("cliente", "==", term)))`. -/
  | queryCliente (term : String)
  deriving DecidableEq, Repr

/-- Which `return` or `catch` a handler call ended in. -/
inductive Outcome where
  /-- The guard `if (!userId || !db) return;` fired. -/
  | notReady
  /-- The branch `console.error("Error: Repuesto sin stock."); return;` ran. -/
  | noStock
  /-- An awaited Gateway call threw and the `catch` block ran. -/
  | failed (e : GatewayError)
  /-- The `try` block ran to its end. -/
  | done
  deriving DecidableEq, Repr

/-- The state after a handler call and what the call did. -/
structure Result where
  app : AppState
  db : Gateway
  calls : List Call
  log : List String
  outcome : Outcome
  deriving DecidableEq, Repr

/-- The keys of `formData`; `e.target.name` of a change event is one of them. -/
inductive Field where
  | cliente
  | dispositivo
  | problema
  | repuestoId
  | estado
  | fechaCreacion
  | costoRepuesto
  | precioReparacion
  deriving DecidableEq, Repr

/-- The controls of the ticket form (App.jsx, the modal of `showTicketModal`):
the `name` attributes of its inputs. -/
def ticketFormFields : List Field :=
  [.cliente, .dispositivo, .problema, .repuestoId, .precioReparacion]

/-- App.jsx lines 109-115: `setFormData(prev => ({ ...prev, [name]: ... }))`,
where the two numeric keys receive `Number(value)`. The coercion `Number` of
the language is the parameter `toNumber`. -/
def handleTicketInputChange (toNumber : String → ℚ) (name : Field) (value : String)
    (prev : FormData) : FormData :=
  match name with
  | .cliente => { prev with cliente := value }
  | .dispositivo => { prev with dispositivo := value }
  | .problema => { prev with problema := value }
  | .repuestoId => { prev with repuestoId := value }
  | .estado => { prev with estado := value }
  | .fechaCreacion => { prev with fechaCreacion := value }
  | .costoRepuesto => { prev with costoRepuesto := toNumber value }
  | .precioReparacion => { prev with precioReparacion := toNumber value }

/-- App.jsx lines 142-159: the `addDoc` of `{ ...formData, costoRepuesto:
repuestoCosto }`, then the reset of the form and the closing of the modal, or
the `catch` block when `addDoc` throws. `calls` are the calls already issued and
`db` the Gateway after them. -/
def persistTicket (env : Env) (s : AppState) (db : Gateway) (calls : List Call)
    (repuestoCosto : ℚ) : Result :=
  let record : FormData := { s.formData with costoRepuesto := repuestoCosto }
  match db.createTicket env.createOk env.newId record with
  | .error e =>
    { app := s, db := db, calls := calls ++ [Call.addTicket record],
      log := ["Error al añadir el ticket:"], outcome := .failed e }
  | .ok db2 =>
    { app := { s with formData := initialFormData env.now, showTicketModal := false },
      db := db2, calls := calls ++ [Call.addTicket record], log := [], outcome := .done }

/-- App.jsx lines 123-160. -/
def handleAddTicket (env : Env) (s : AppState) (db : Gateway) : Result :=
  if !s.sessionReady then
    { app := s, db := db, calls := [], log := [], outcome := .notReady }
  else if s.formData.repuestoId ≠ "" then
    match s.inventory.find? (fun item => decide (item.id = s.formData.repuestoId)) with
    | some currentRepuesto =>
      if currentRepuesto.stock > 0 then
        match db.updateStock env.decrementOk s.formData.repuestoId
            (jsSub currentRepuesto.stock 1) with
        | .error e =>
          { app := s, db := db,
            calls := [Call.updateStock s.formData.repuestoId (jsSub currentRepuesto.stock 1)],
            log := ["Error al añadir el ticket:"], outcome := .failed e }
        | .ok db1 =>
          persistTicket env s db1
            [Call.updateStock s.formData.repuestoId (jsSub currentRepuesto.stock 1)]
            currentRepuesto.costo
      else
        { app := s, db := db, calls := [], log := ["Error: Repuesto sin stock."],
          outcome := .noStock }
    | none =>
      { app := s, db := db, calls := [], log := ["Error: Repuesto sin stock."],
        outcome := .noStock }
  else persistTicket env s db [] 0

/-- App.jsx lines 177-185. -/
def handleUpdateStatus (env : Env) (ticketId : String) (newStatus : String)
    (s : AppState) (db : Gateway) : Result :=
  if !s.sessionReady then
    { app := s, db := db, calls := [], log := [], outcome := .notReady }
  else
    match db.updateEstado env.updateOk ticketId newStatus with
    | .error e =>
      { app := s, db := db, calls := [Call.updateEstado ticketId newStatus],
        log := ["Error al actualizar el estado del ticket:"], outcome := .failed e }
    | .ok db1 =>
      { app := s, db := db1, calls := [Call.updateEstado ticketId newStatus],
        log := [], outcome := .done }

/-- App.jsx lines 187-195. -/
def handleDeleteTicket (env : Env) (ticketId : String) (s : AppState) (db : Gateway) : Result :=
  if !s.sessionReady then
    { app := s, db := db, calls := [], log := [], outcome := .notReady }
  else
    match db.deleteTicket env.deleteOk ticketId with
    | .error e =>
      { app := s, db := db, calls := [Call.deleteTicket ticketId],
        log := ["Error al eliminar el ticket:"], outcome := .failed e }
    | .ok db1 =>
      { app := s, db := db1, calls := [Call.deleteTicket ticketId],
        log := [], outcome := .done }

/-- App.jsx lines 79-84 and 95-100: the two `onSnapshot` listeners replace the
mirrors by the current content of the collections. -/
def onSnapshot (db : Gateway) (s : AppState) : AppState :=
  { s with tickets := db.tickets, inventory := db.inventory }

/-! ## Observations -/

/-- The stock the Gateway holds for the item `id`, if it has that item. -/
def Gateway.stockOf (db : Gateway) (id : String) : Option Int :=
  (db.inventory.find? (fun i => decide (i.id = id))).map Item.stock

/-- The stocks of the inventory collection, in document order. -/
def Gateway.stocks (db : Gateway) : List (String × Int) :=
  db.inventory.map (fun i => (i.id, i.stock))

/-- Whether a call writes to the inventory collection. -/
def Call.isInventoryWrite : Call → Bool
  | .updateStock _ _ => true
  | .addItem _ => true
  | .deleteItem _ => true
  | _ => false

/-- Whether a call writes to the ticket collection by `addDoc`. -/
def Call.isTicketCreate : Call → Bool
  | .addTicket _ => true
  | _ => false


/-! ## Sample data -/

/-- A screen with two parts in stock and one exhausted part. -/
def sampleInventory : List Item :=
  [ { id := "p1", nombre := "Pantalla", stock := 2, costo := 40 },
    { id := "p2", nombre := "Bateria", stock := 0, costo := 15 },
    { id := "p3", nombre := "Conector", stock := 1, costo := 5 } ]

/-- A ticket already delivered, created with the part `p1`. -/
def sampleTicket : Ticket :=
  { id := "t1", cliente := "Alice", dispositivo := "Telefono", problema := "Pantalla rota",
    repuestoId := "p1", estado := "Entregado", fechaCreacion := "2024-01-01T08:00:00.000Z",
    costoRepuesto := some 40, precioReparacion := some 100 }

/-- A second ticket, without a part. -/
def sampleTicket2 : Ticket :=
  { id := "t2", cliente := "Bob", dispositivo := "Tablet", problema := "No enciende",
    repuestoId := "", estado := "Pendiente", fechaCreacion := "2024-01-01T08:30:00.000Z",
    costoRepuesto := some 0, precioReparacion := some 50 }

/-- The collections behind the sample session. -/
def sampleDb : Gateway :=
  { tickets := [sampleTicket, sampleTicket2], inventory := sampleInventory }

/-- A draft as the operator fills it in; the form was mounted at 09:00. -/
def sampleDraft (repuestoId : String) : FormData :=
  { cliente := "Carla", dispositivo := "Laptop", problema := "Teclado", repuestoId := repuestoId,
    estado := "Pendiente", fechaCreacion := "2024-01-01T09:00:00.000Z",
    costoRepuesto := 7, precioReparacion := 120 }

/-- A signed-in session whose mirrors agree with `sampleDb`. -/
def sampleState (repuestoId : String) : AppState :=
  { tickets := sampleDb.tickets, inventory := sampleDb.inventory, userId := some "u1",
    dbHandle := true, formData := sampleDraft repuestoId, showTicketModal := true,
    inventoryFormData := { nombre := "", stock := 0, costo := 0 }, showInventoryModal := false,
    historySearchTerm := "", clientHistory := [] }

/-- The same session before the sign-in completed (`userId` is `null`). -/
def signedOutState (repuestoId : String) : AppState :=
  { sampleState repuestoId with userId := none }

/-- Every Gateway call goes through; the handler runs at 17:45. -/
def sampleEnv : Env :=
  { now := "2024-01-01T17:45:00.000Z", newId := "t3", decrementOk := true, createOk := true,
    updateOk := true, deleteOk := true, queryOk := true }

/-- One `handleAddTicket` submission: the draft the operator submits and what the
outside world decides during the call. -/
structure CreateOp where
  draft : FormData
  env : Env
  deriving DecidableEq, Repr

/-- One submission on a pair (React state, Gateway): the listeners first bring
the mirrors up to date with the collections, then `handleAddTicket` runs on the
submitted draft. -/
def createStep (st : AppState × Gateway) (op : CreateOp) : AppState × Gateway :=
  ((handleAddTicket op.env { onSnapshot st.2 st.1 with formData := op.draft } st.2).app,
   (handleAddTicket op.env { onSnapshot st.2 st.1 with formData := op.draft } st.2).db)

/-- A finite sequence of submissions, in order. -/
def createRun (ops : List CreateOp) (st : AppState × Gateway) : AppState × Gateway :=
  ops.foldl createStep st

/-- Every item of the inventory collection has a stock of at least 0. -/
def Gateway.stockNonneg (db : Gateway) : Prop :=
  ∀ i ∈ db.inventory, 0 ≤ i.stock

/-- The drafts the ticket form can hold: the value `useState` gives at mount,
then any change event on one of the form's controls, then whatever
`handleAddTicket` leaves in `formData` (the reset after a successful creation,
the unchanged draft otherwise). -/
inductive FormReachable (toNumber : String → ℚ) : FormData → Prop where
  | mount (now : String) : FormReachable toNumber (initialFormData now)
  | change {f : FormData} (name : Field) (value : String) :
      FormReachable toNumber f → name ∈ ticketFormFields →
      FormReachable toNumber (handleTicketInputChange toNumber name value f)
  | submit {f : FormData} (env : Env) (s : AppState) (db : Gateway) :
      FormReachable toNumber f → s.formData = f →
      FormReachable toNumber (handleAddTicket env s db).app.formData

/-- The `estado` the Gateway holds for the ticket `id`, if it has that ticket. -/
def Gateway.estadoOf (db : Gateway) (id : String) : Option String :=
  (db.tickets.find? (fun t => decide (t.id = id))).map Ticket.estado

/-- A stand-in for the coercion `Number` on the unsigned decimal numerals used in
the examples: the integer the numeral denotes, and 0 for the empty string. -/
def sampleNumber (value : String) : ℚ :=
  ((value.toList.foldl (fun n c => 10 * n + (c.toNat - 48)) 0 : Nat) : ℚ)

/-- The draft after the operator typed a client, chose the part `p1` and typed a
price into the form mounted at 09:00. -/
def typedDraft : FormData :=
  handleTicketInputChange sampleNumber .precioReparacion "150"
    (handleTicketInputChange sampleNumber .repuestoId "p1"
      (handleTicketInputChange sampleNumber .cliente "Dana"
        (initialFormData "2024-01-01T09:00:00.000Z")))

/-! ## Inventory handlers and the history query -/

/-- Modelled from the spec: `create(collection, record) -> id` on the inventory
collection. It fails with `WriteError` when the transport fails and otherwise
appends the record under the id the Gateway assigns. -/
def Gateway.createItem (transportOk : Bool) (newId : String) (r : InventoryFormData)
    (db : Gateway) : Except GatewayError Gateway :=
  if !transportOk then .error .writeError
  else .ok { db with
             inventory := db.inventory ++
               [{ id := newId, nombre := r.nombre, stock := r.stock, costo := r.costo }] }

/-- Modelled from the spec: `delete(collection, id)` on the inventory collection.
It fails with `WriteError` when the transport fails, with `NotFound` when no
document has that id, and otherwise removes that document and nothing else. -/
def Gateway.deleteItem (transportOk : Bool) (id : String) (db : Gateway) :
    Except GatewayError Gateway :=
  if !transportOk then .error .writeError
  else if db.inventory.any (fun i => decide (i.id = id)) then
    .ok { db with inventory := db.inventory.filter (fun i => decide (i.id ≠ id)) }
  else .error .notFound

/-- Modelled from the spec: `query(collection, field, equals, value) -> recordSet`
on the ticket collection for the field `cliente`: the documents whose `cliente`
is the same string as `value`, or `ReadError` when the transport fails. -/
def Gateway.queryCliente (transportOk : Bool) (value : String) (db : Gateway) :
    Except GatewayError (List Ticket) :=
  if !transportOk then .error .readError
  else .ok (db.tickets.filter (fun t => decide (t.cliente = value)))

/-- App.jsx lines 163-174. -/
def handleAddInventoryItem (env : Env) (s : AppState) (db : Gateway) : Result :=
  if !s.sessionReady then
    { app := s, db := db, calls := [], log := [], outcome := .notReady }
  else
    match db.createItem env.createOk env.newId s.inventoryFormData with
    | .error e =>
      { app := s, db := db, calls := [Call.addItem s.inventoryFormData],
        log := ["Error al añadir el inventario:"], outcome := .failed e }
    | .ok db1 =>
      { app := { s with inventoryFormData := { nombre := "", stock := 0, costo := 0 },
                        showInventoryModal := false },
        db := db1, calls := [Call.addItem s.inventoryFormData], log := [], outcome := .done }

/-- App.jsx lines 209-217. -/
def handleDeleteInventoryItem (env : Env) (itemId : String) (s : AppState) (db : Gateway) :
    Result :=
  if !s.sessionReady then
    { app := s, db := db, calls := [], log := [], outcome := .notReady }
  else
    match db.deleteItem env.deleteOk itemId with
    | .error e =>
      { app := s, db := db, calls := [Call.deleteItem itemId],
        log := ["Error al eliminar el artículo de inventario:"], outcome := .failed e }
    | .ok db1 =>
      { app := s, db := db1, calls := [Call.deleteItem itemId], log := [], outcome := .done }

/-- App.jsx lines 220-230. The guard is `!userId || !db || !historySearchTerm`: it
also fires on the empty search term. -/
def handleSearchHistory (env : Env) (s : AppState) (db : Gateway) : Result :=
  if !s.sessionReady || decide (s.historySearchTerm = "") then
    { app := s, db := db, calls := [], log := [], outcome := .notReady }
  else
    match db.queryCliente env.queryOk s.historySearchTerm with
    | .error e =>
      { app := s, db := db, calls := [Call.queryCliente s.historySearchTerm],
        log := ["Error al buscar el historial del cliente:"], outcome := .failed e }
    | .ok historyTickets =>
      { app := { s with clientHistory := historyTickets }, db := db,
        calls := [Call.queryCliente s.historySearchTerm], log := [], outcome := .done }

/-! ## Dashboard statistics -/

/-- The expression `x || 0` on a numeric field that may be missing. -/
def orZero (x : Option ℚ) : ℚ :=
  x.getD 0

/-- App.jsx line 233: `tickets.length`. -/
def totalTickets (tickets : List Ticket) : Nat :=
  tickets.length

/-- App.jsx line 234: `tickets.filter(t => t.estado === 'Pendiente').length`. -/
def pendingTickets (tickets : List Ticket) : Nat :=
  (tickets.filter (fun t => decide (t.estado = "Pendiente"))).length

/-- App.jsx line 235: `tickets.filter(t => t.estado === 'En Progreso').length`. -/
def progressTickets (tickets : List Ticket) : Nat :=
  (tickets.filter (fun t => decide (t.estado = "En Progreso"))).length

/-- App.jsx line 236:
`tickets.filter(t => t.estado === 'Listo' || t.estado === 'Entregado').length`. -/
def finishedTickets (tickets : List Ticket) : Nat :=
  (tickets.filter
    (fun t => decide (t.estado = "Listo") || decide (t.estado = "Entregado"))).length

/-- App.jsx line 237:
`tickets.reduce((acc, ticket) => acc + (ticket.costoRepuesto || 0), 0)`. -/
def totalRepuestosCost (tickets : List Ticket) : ℚ :=
  tickets.foldl (fun acc ticket => jsAdd acc (orZero ticket.costoRepuesto)) 0

/-- App.jsx line 238:
`tickets.reduce((acc, ticket) => acc + (ticket.precioReparacion || 0), 0)`. -/
def totalIngresos (tickets : List Ticket) : ℚ :=
  tickets.foldl (fun acc ticket => jsAdd acc (orZero ticket.precioReparacion)) 0

/-! ### Reference definitions of the statistics

These follow the wording of section 4.3 of the specification and are compared
with the definitions above. -/

/-- The four values of the status enumeration. -/
def estados : List String :=
  ["Pendiente", "En Progreso", "Listo", "Entregado"]

/-- Reference: the number of tickets whose status satisfies `p`. -/
def refCount (p : String → Bool) : List Ticket → Nat
  | [] => 0
  | t :: rest => (if p t.estado then 1 else 0) + refCount p rest

/-- Reference: the sum over all tickets of a numeric field, a missing value
counting as 0. -/
def refSum (field : Ticket → Option ℚ) : List Ticket → ℚ
  | [] => 0
  | t :: rest =>
    (match field t with
     | some v => v
     | none => 0) + refSum field rest

/-- Reference: "count of all tickets". -/
def refTotalTickets : List Ticket → Nat
  | [] => 0
  | _ :: rest => refTotalTickets rest + 1

/-- Reference: "count where status = Pending". -/
def refPendingTickets (tickets : List Ticket) : Nat :=
  refCount (fun e => decide (e = "Pendiente")) tickets

/-- Reference: "count where status = InProgress". -/
def refProgressTickets (tickets : List Ticket) : Nat :=
  refCount (fun e => decide (e = "En Progreso")) tickets

/-- Reference: "count where status ∈ {Ready, Delivered}". -/
def refFinishedTickets (tickets : List Ticket) : Nat :=
  refCount (fun e => decide (e ∈ ["Listo", "Entregado"])) tickets

/-- Reference: "sum of partCost over all tickets (missing/undefined treated as 0)". -/
def refTotalRepuestosCost (tickets : List Ticket) : ℚ :=
  refSum Ticket.costoRepuesto tickets

/-- Reference: "sum of repairPrice over all tickets (missing/undefined treated as 0)". -/
def refTotalIngresos (tickets : List Ticket) : ℚ :=
  refSum Ticket.precioReparacion tickets

/-- A ticket with the given status, repair price and part cost. -/
def statTicket (id estado : String) (precio costo : ℚ) : Ticket :=
  { id := id, cliente := "Alice", dispositivo := "Telefono", problema := "Pantalla rota",
    repuestoId := "", estado := estado, fechaCreacion := "2024-01-01T08:00:00.000Z",
    costoRepuesto := some costo, precioReparacion := some precio }

/-- The ticket list of the aggregation example of section 8. -/
def statTickets : List Ticket :=
  [statTicket "a" "Pendiente" 100 0, statTicket "b" "En Progreso" 50 10,
   statTicket "c" "Entregado" 200 20]

/-! ### Sample data for the history query -/

/-- A ticket of the given client. -/
def clientTicket (id cliente : String) : Ticket :=
  { id := id, cliente := cliente, dispositivo := "Telefono", problema := "Bateria",
    repuestoId := "", estado := "Listo", fechaCreacion := "2024-01-01T08:00:00.000Z",
    costoRepuesto := some 0, precioReparacion := some 30 }

/-- Two tickets of `Alice` and one of `Bob`. -/
def historyDb : Gateway :=
  { tickets := [clientTicket "h1" "Alice", clientTicket "h2" "Bob", clientTicket "h3" "Alice"],
    inventory := sampleInventory }

/-- A session in which the operator typed `term` into the search box while an
older result (the ticket of `Bob`) is still displayed. -/
def searchState (term : String) : AppState :=
  { sampleState "" with historySearchTerm := term, clientHistory := [clientTicket "h2" "Bob"] }

/-! ## Life of a ticket after its creation -/

/-- The `costoRepuesto` the Gateway holds for the ticket `id`, if it has that
ticket; the inner `none` is a document without the field. -/
def Gateway.costoRepuestoOf (db : Gateway) (id : String) : Option (Option ℚ) :=
  (db.tickets.find? (fun t => decide (t.id = id))).map Ticket.costoRepuesto

/-- What can happen while a ticket exists: a status change of any ticket, the
creation of another ticket, the creation or deletion of an inventory item, any
change of the inventory collection made by another writer (a new `costo` or
`stock` of an item, for instance), and the arrival of a snapshot. -/
inductive PostOp where
  | updateStatus (env : Env) (ticketId newStatus : String)
  | addTicket (env : Env) (draft : FormData)
  | addInventoryItem (env : Env) (draft : InventoryFormData)
  | deleteInventoryItem (env : Env) (itemId : String)
  | inventoryChange (inventory : List Item)
  | snapshot

/-- One such event on a pair (React state, Gateway). -/
def postStep (st : AppState × Gateway) : PostOp → AppState × Gateway
  | .updateStatus env ticketId newStatus =>
    ((handleUpdateStatus env ticketId newStatus st.1 st.2).app,
     (handleUpdateStatus env ticketId newStatus st.1 st.2).db)
  | .addTicket env draft =>
    ((handleAddTicket env { st.1 with formData := draft } st.2).app,
     (handleAddTicket env { st.1 with formData := draft } st.2).db)
  | .addInventoryItem env draft =>
    ((handleAddInventoryItem env { st.1 with inventoryFormData := draft } st.2).app,
     (handleAddInventoryItem env { st.1 with inventoryFormData := draft } st.2).db)
  | .deleteInventoryItem env itemId =>
    ((handleDeleteInventoryItem env itemId st.1 st.2).app,
     (handleDeleteInventoryItem env itemId st.1 st.2).db)
  | .inventoryChange inventory => (st.1, { st.2 with inventory := inventory })
  | .snapshot => (onSnapshot st.2 st.1, st.2)

/-- A finite sequence of such events, in order. -/
def postRun (ops : List PostOp) (st : AppState × Gateway) : AppState × Gateway :=
  ops.foldl postStep st

/-- A sample of events after the creation of the ticket `t1`, which was created
with the part `p1` at cost 40: its status changes, another writer changes the
cost and the stock of `p1`, another ticket is created with `p1`, `p1` is
deleted and a new item is added. -/
def samplePostOps : List PostOp :=
  [ .updateStatus sampleEnv "t1" "Listo",
    .inventoryChange
      [ { id := "p1", nombre := "Pantalla", stock := 7, costo := 99 },
        { id := "p3", nombre := "Conector", stock := 1, costo := 5 } ],
    .snapshot,
    .addTicket sampleEnv (sampleDraft "p1"),
    .deleteInventoryItem sampleEnv "p1",
    .addInventoryItem { sampleEnv with newId := "p4" }
      { nombre := "Pantalla", stock := 3, costo := 55 },
    .snapshot ]

/-- The second of two submissions that read the same mirror: the first runs on
the Gateway `db`, the second on the Gateway the first one left, and the state
`s2` of the second still holds the mirror the first one read. -/
def secondSubmission (env1 env2 : Env) (s1 s2 : AppState) (db : Gateway) : Result :=
  handleAddTicket env2 s2 (handleAddTicket env1 s1 db).db

/-- Whether no partial sum of the `reduce` over `field`, started at `acc`, is
rounded: each exact partial sum is itself a double. -/
def sumsExact (field : Ticket → Option ℚ) : ℚ → List Ticket → Bool
  | _, [] => true
  | acc, t :: rest =>
    decide (roundDouble (acc + orZero (field t)) = acc + orZero (field t)) &&
      sumsExact field (acc + orZero (field t)) rest

/-- Three tickets with the repair prices `2 ^ 53`, 1 and 1. -/
def bigTickets : List Ticket :=
  [statTicket "x" "Listo" 9007199254740992 0, statTicket "y" "Listo" 1 0,
   statTicket "z" "Listo" 1 0]

/-- Three tickets with the repair price 99.99 and the part costs 0.1, 0.2 and 0.3,
each the double that `Number` gives for the numeral. -/
def decimalTickets : List Ticket :=
  [statTicket "u" "Listo" (roundDouble (9999 / 100)) (roundDouble (1 / 10)),
   statTicket "v" "Listo" (roundDouble (9999 / 100)) (roundDouble (2 / 10)),
   statTicket "w" "Listo" (roundDouble (9999 / 100)) (roundDouble (3 / 10))]

/-! ## Interleaved submissions

`handleAddTicket` is suspended at each `await`: between the moment the Gateway
answers its `updateDoc` and the moment it answers its `addDoc`, another call of
the handler can run. A call in flight is modelled by the stage it has reached;
the state it closed over (draft and mirror) is fixed when it starts. A race
records the Gateway and the calls issued; the `setFormData` and
`setShowTicketModal` of a call that succeeds are those of `handleAddTicket`. -/

/-- Where a call of `handleAddTicket` stands: not started; suspended after the
`await updateDoc` of line 134 was answered, holding `repuestoCosto`; or
returned. -/
inductive Flight where
  | notStarted
  | decremented (repuestoCosto : ℚ)
  | returned (outcome : Outcome)
  deriving DecidableEq, Repr

/-- Lines 142-159 as one step of a call in flight: the `addDoc` and the answer to
it. The call issued is listed with whether the Gateway carried it out. -/
def advanceCreate (env : Env) (s : AppState) (repuestoCosto : ℚ) (db : Gateway) :
    Flight × Gateway × List (Call × Bool) :=
  match db.createTicket env.createOk env.newId { s.formData with costoRepuesto := repuestoCosto }
    with
  | .error e =>
    (.returned (.failed e), db,
      [(Call.addTicket { s.formData with costoRepuesto := repuestoCosto }, false)])
  | .ok db2 =>
    (.returned .done, db2,
      [(Call.addTicket { s.formData with costoRepuesto := repuestoCosto }, true)])

/-- One step of a call of `handleAddTicket` in flight, on the Gateway as it is when
the step runs: from the start (lines 125-140) up to the answer to the first
Gateway call, or from the answer to `updateDoc` up to the answer to `addDoc`. -/
def advanceAddTicket (env : Env) (s : AppState) (fl : Flight) (db : Gateway) :
    Flight × Gateway × List (Call × Bool) :=
  match fl with
  | .notStarted =>
    if !s.sessionReady then (.returned .notReady, db, [])
    else if s.formData.repuestoId ≠ "" then
      match s.inventory.find? (fun item => decide (item.id = s.formData.repuestoId)) with
      | some currentRepuesto =>
        if currentRepuesto.stock > 0 then
          match db.updateStock env.decrementOk s.formData.repuestoId
              (jsSub currentRepuesto.stock 1) with
          | .error e =>
            (.returned (.failed e), db,
              [(Call.updateStock s.formData.repuestoId (jsSub currentRepuesto.stock 1), false)])
          | .ok db1 =>
            (.decremented currentRepuesto.costo, db1,
              [(Call.updateStock s.formData.repuestoId (jsSub currentRepuesto.stock 1), true)])
        else (.returned .noStock, db, [])
      | none => (.returned .noStock, db, [])
    else advanceCreate env s 0 db
  | .decremented repuestoCosto => advanceCreate env s repuestoCosto db
  | .returned outcome => (.returned outcome, db, [])

/-- Two calls of `handleAddTicket` in flight on one Gateway, with the calls each
has issued so far. -/
structure Race where
  first : Flight
  second : Flight
  db : Gateway
  firstCalls : List (Call × Bool)
  secondCalls : List (Call × Bool)
  deriving DecidableEq, Repr

/-- One scheduling decision: the second call advances by one step when `second` is
true, the first one otherwise. -/
def raceStep (env1 env2 : Env) (s1 s2 : AppState) (r : Race) (second : Bool) : Race :=
  if second then
    { r with
      second := (advanceAddTicket env2 s2 r.second r.db).1
      db := (advanceAddTicket env2 s2 r.second r.db).2.1
      secondCalls := r.secondCalls ++ (advanceAddTicket env2 s2 r.second r.db).2.2 }
  else
    { r with
      first := (advanceAddTicket env1 s1 r.first r.db).1
      db := (advanceAddTicket env1 s1 r.first r.db).2.1
      firstCalls := r.firstCalls ++ (advanceAddTicket env1 s1 r.first r.db).2.2 }

/-- The execution of two calls of `handleAddTicket` under a schedule: any
interleaving of their steps, starting on the Gateway `db`. -/
def race (env1 env2 : Env) (s1 s2 : AppState) (schedule : List Bool) (db : Gateway) : Race :=
  schedule.foldl (raceStep env1 env2 s1 s2)
    { first := .notStarted, second := .notStarted, db := db, firstCalls := [],
      secondCalls := [] }

/-- Whether the call has got past its stock write: it is suspended before the
`addDoc` or has succeeded. -/
def Flight.pastDecrement : Flight → Bool
  | .decremented _ => true
  | .returned .done => true
  | _ => false

/-- The 1 a call that has succeeded adds to the number of tickets. -/
def Flight.created : Flight → Nat
  | .returned .done => 1
  | _ => 0

/-- What every race of two calls that name the item `rid` and read a mirror in
which it has stock 1 keeps true, `db0` being the Gateway the race started on:
the only inventory write issued is `{ stock: 0 }`; the stock the Gateway holds
for `rid` is 0 once such a write was carried out and is the initial one before;
the tickets added are one for each call that succeeded; and a call is past its
stock write only if that write was carried out. -/
def Race.staleInvariant (rid : String) (db0 : Gateway) (r : Race) : Prop :=
  (∀ p ∈ r.firstCalls ++ r.secondCalls,
    p.1 = Call.updateStock rid 0 ∨ p.1.isInventoryWrite = false) ∧
  ((Call.updateStock rid 0, true) ∈ r.firstCalls ++ r.secondCalls →
    r.db.stockOf rid = some 0) ∧
  ((Call.updateStock rid 0, true) ∉ r.firstCalls ++ r.secondCalls →
    r.db.stockOf rid = db0.stockOf rid) ∧
  r.db.tickets.length = db0.tickets.length + r.first.created + r.second.created ∧
  (r.first.pastDecrement = true → (Call.updateStock rid 0, true) ∈ r.firstCalls) ∧
  (r.second.pastDecrement = true → (Call.updateStock rid 0, true) ∈ r.secondCalls)

/-! ### Sample data beyond the range of exact integers -/

/-- An item whose stock is `2 ^ 53 + 2`, a double. -/
def bigStockItem : Item :=
  { id := "p9", nombre := "Tornillo", stock := 9007199254740994, costo := 1 }

/-- The collections of a shop that holds only `bigStockItem`. -/
def bigStockDb : Gateway :=
  { tickets := [], inventory := [bigStockItem] }

/-- A signed-in session whose mirror agrees with `bigStockDb` and whose draft names
the item `p9`. -/
def bigStockState : AppState :=
  { sampleState "p9" with tickets := [], inventory := [bigStockItem] }

/-! ## Auxiliary facts on numbers -/

/-- A natural number up to `2 ^ 53` is a double. -/
theorem roundNat_small (m : Nat) (h : m ≤ 9007199254740992) : roundNat m = m := by
  unfold roundNat
  rw [if_pos h]

/-- Rounding keeps the sign: the double nearest to an integer that is not negative
is not negative. -/
theorem roundInt_nonneg (n : Int) (h : 0 ≤ n) : 0 ≤ roundInt n := by
  unfold roundInt
  rw [if_neg (not_lt.mpr h)]
  exact Int.ofNat_nonneg _

/-- An integer of magnitude up to `2 ^ 53` is a double. -/
theorem roundInt_small (n : Int) (h : n.natAbs ≤ 9007199254740992) : roundInt n = n := by
  unfold roundInt
  rw [roundNat_small _ h]
  by_cases hn : n < 0
  · rw [if_pos hn]; omega
  · rw [if_neg hn]; omega

/-- The stock written for a positive mirrored stock is not negative. -/
theorem jsSub_one_nonneg (n : Int) (h : 0 < n) : 0 ≤ jsSub n 1 := by
  unfold jsSub
  exact roundInt_nonneg _ (by omega)

/-- For a positive stock up to `2 ^ 53` the subtraction of 1 is exact. -/
theorem jsSub_one_exact (n : Int) (h0 : 0 < n) (h : n ≤ 9007199254740992) :
    jsSub n 1 = n - 1 := by
  unfold jsSub
  exact roundInt_small _ (by omega)

/-- On an integer, `roundDouble` is `roundInt`. -/
theorem roundDouble_intCast (n : Int) : roundDouble (n : ℚ) = ((roundInt n : Int) : ℚ) := by
  unfold roundDouble
  rw [if_pos (Rat.den_intCast n), Rat.num_intCast]

/-- An integer of magnitude up to `2 ^ 53` is a double. -/
theorem roundDouble_int_small (n : Int) (h : n.natAbs ≤ 9007199254740992) :
    roundDouble (n : ℚ) = (n : ℚ) := by
  rw [roundDouble_intCast, roundInt_small n h]

/-! ## Auxiliary facts on the Gateway -/

/-- A stock write that succeeds was carried by the transport, found the item,
and replaced exactly the `stock` of the documents with that id. -/
theorem Gateway.updateStock_ok {ok : Bool} {id : String} {v : Int} {db db1 : Gateway}
    (h : db.updateStock ok id v = .ok db1) :
    ok = true ∧ db.inventory.any (fun i => decide (i.id = id)) = true ∧
      db1 = { db with
              inventory := db.inventory.map
                (fun i => if i.id = id then { i with stock := v } else i) } := by
  unfold Gateway.updateStock at h
  cases ok with
  | false => simp at h
  | true =>
    by_cases hany : db.inventory.any (fun i => decide (i.id = id)) = true
    · simp only [Bool.not_true, Bool.false_eq_true, if_false, hany, if_true] at h
      injection h with h
      exact ⟨rfl, hany, h.symm⟩
    · simp [hany] at h

/-- A stock write carried by the transport on an item the Gateway holds
succeeds. -/
theorem Gateway.updateStock_eq_ok (id : String) (v : Int) (db : Gateway)
    (hany : db.inventory.any (fun i => decide (i.id = id)) = true) :
    db.updateStock true id v = .ok { db with
              inventory := db.inventory.map
                (fun i => if i.id = id then { i with stock := v } else i) } := by
  unfold Gateway.updateStock
  simp only [Bool.not_true, Bool.false_eq_true, if_false, hany, if_true]

/-- After the stock of the items named `id` is set to `v`, the lookup of `id`
finds stock `v`. -/
theorem find_map_setStock (l : List Item) (id : String) (v : Int)
    (h : l.any (fun i => decide (i.id = id)) = true) :
    ((l.map (fun i => if i.id = id then { i with stock := v } else i)).find?
      (fun i => decide (i.id = id))).map Item.stock = some v := by
  induction l with
  | nil => simp at h
  | cons a t ih =>
    by_cases ha : a.id = id
    · simp [List.find?, ha]
    · simp [ha] at h
      simp [List.find?, ha]
      simpa using ih (by simpa using h)

/-- Setting the stock of the items named `id` does not change the stock found
for another id. -/
theorem find_map_setStock_other (l : List Item) (id id2 : String) (v : Int) (hne : id2 ≠ id) :
    ((l.map (fun i => if i.id = id then { i with stock := v } else i)).find?
      (fun i => decide (i.id = id2))).map Item.stock =
    (l.find? (fun i => decide (i.id = id2))).map Item.stock := by
  induction l with
  | nil => simp
  | cons a t ih =>
    have hid : (if a.id = id then { a with stock := v } else a).id = a.id := by
      split <;> rfl
    simp only [List.map_cons, List.find?_cons, hid]
    by_cases h2 : a.id = id2
    · have ha : ¬ a.id = id := fun h => hne (h2.symm.trans h)
      simp only [h2, decide_True, Option.map_some']
      rw [if_neg (by rw [← h2]; exact ha)]
    · simp only [h2, decide_False]
      exact ih

/-- After a successful stock write the Gateway holds the written stock for that
item. -/
theorem Gateway.stockOf_updateStock {ok : Bool} {id : String} {v : Int} {db db1 : Gateway}
    (h : db.updateStock ok id v = .ok db1) : db1.stockOf id = some v := by
  obtain ⟨_, hany, rfl⟩ := Gateway.updateStock_ok h
  exact find_map_setStock db.inventory id v hany

/-- A successful stock write leaves the stock of every other item as it was. -/
theorem Gateway.stockOf_updateStock_other {ok : Bool} {id id2 : String} {v : Int}
    {db db1 : Gateway} (h : db.updateStock ok id v = .ok db1) (hne : id2 ≠ id) :
    db1.stockOf id2 = db.stockOf id2 := by
  obtain ⟨_, _, rfl⟩ := Gateway.updateStock_ok h
  exact find_map_setStock_other db.inventory id id2 v hne

/-- A successful stock write leaves the ticket collection as it was. -/
theorem Gateway.tickets_updateStock {ok : Bool} {id : String} {v : Int} {db db1 : Gateway}
    (h : db.updateStock ok id v = .ok db1) : db1.tickets = db.tickets := by
  obtain ⟨_, _, rfl⟩ := Gateway.updateStock_ok h
  rfl

/-! ## Auxiliary facts on `handleAddTicket` -/

/-- The `addDoc` step when the transport carries it: the ticket is appended, the
form is reset and the modal closed. -/
theorem persistTicket_ok (env : Env) (s : AppState) (db : Gateway) (calls : List Call) (c : ℚ)
    (h : env.createOk = true) :
    persistTicket env s db calls c =
      { app := { s with formData := initialFormData env.now, showTicketModal := false },
        db := { db with
                tickets := db.tickets ++
                  [Ticket.ofRecord env.newId { s.formData with costoRepuesto := c }] },
        calls := calls ++ [Call.addTicket { s.formData with costoRepuesto := c }],
        log := [], outcome := .done } := by
  simp [persistTicket, Gateway.createTicket, h]

/-- The `addDoc` step when the transport fails: the `catch` block runs and
nothing changes. -/
theorem persistTicket_fail (env : Env) (s : AppState) (db : Gateway) (calls : List Call) (c : ℚ)
    (h : env.createOk = false) :
    persistTicket env s db calls c =
      { app := s, db := db,
        calls := calls ++ [Call.addTicket { s.formData with costoRepuesto := c }],
        log := ["Error al añadir el ticket:"], outcome := .failed .writeError } := by
  simp [persistTicket, Gateway.createTicket, h]

/-- With `userId` or `db` missing, `handleAddTicket` returns at its guard. -/
theorem handleAddTicket_notReady (env : Env) (s : AppState) (db : Gateway)
    (h : s.sessionReady = false) :
    handleAddTicket env s db =
      { app := s, db := db, calls := [], log := [], outcome := .notReady } := by
  simp [handleAddTicket, h]

/-- With an empty `repuestoId`, `handleAddTicket` goes straight to the `addDoc`
with cost 0. -/
theorem handleAddTicket_noPart (env : Env) (s : AppState) (db : Gateway)
    (hready : s.sessionReady = true) (hid : s.formData.repuestoId = "") :
    handleAddTicket env s db = persistTicket env s db [] 0 := by
  simp [handleAddTicket, hready, hid]

/-- Past the stock check, `handleAddTicket` is the stock write followed, when it
succeeds, by the `addDoc` with the item's cost. -/
theorem handleAddTicket_inStock (env : Env) (s : AppState) (db : Gateway) (item : Item)
    (hready : s.sessionReady = true) (hid : s.formData.repuestoId ≠ "")
    (hfind : s.inventory.find? (fun i => decide (i.id = s.formData.repuestoId)) = some item)
    (hpos : 0 < item.stock) :
    handleAddTicket env s db =
      match db.updateStock env.decrementOk s.formData.repuestoId (jsSub item.stock 1) with
      | .error e =>
        { app := s, db := db,
          calls := [Call.updateStock s.formData.repuestoId (jsSub item.stock 1)],
          log := ["Error al añadir el ticket:"], outcome := .failed e }
      | .ok db1 =>
        persistTicket env s db1 [Call.updateStock s.formData.repuestoId (jsSub item.stock 1)]
          item.costo := by
  simp [handleAddTicket, hready, hid, hfind, hpos]

/-- A call of `handleAddTicket` that succeeds passed the session guard. -/
theorem handleAddTicket_done_ready (env : Env) (s : AppState) (db : Gateway)
    (h : (handleAddTicket env s db).outcome = .done) : s.sessionReady = true := by
  cases hr : s.sessionReady with
  | true => rfl
  | false => rw [handleAddTicket_notReady env s db hr] at h; simp at h

/-- The `addDoc` step succeeds only when the transport carries it. -/
theorem persistTicket_done_createOk (env : Env) (s : AppState) (db : Gateway)
    (calls : List Call) (c : ℚ) (h : (persistTicket env s db calls c).outcome = .done) :
    env.createOk = true := by
  cases hc : env.createOk with
  | true => rfl
  | false => rw [persistTicket_fail env s db calls c hc] at h; simp at h

/-- The `addDoc` step never touches the inventory collection. -/
theorem persistTicket_inventory (env : Env) (s : AppState) (db : Gateway) (calls : List Call)
    (c : ℚ) : (persistTicket env s db calls c).db.inventory = db.inventory := by
  cases hc : env.createOk with
  | true => rw [persistTicket_ok env s db calls c hc]
  | false => rw [persistTicket_fail env s db calls c hc]

/-- One call of `handleAddTicket` keeps every stock of the Gateway at 0 or more,
whatever the mirror holds. -/
theorem handleAddTicket_preserves_stockNonneg (env : Env) (s : AppState) (db : Gateway)
    (h : db.stockNonneg) : (handleAddTicket env s db).db.stockNonneg := by
  cases hr : s.sessionReady with
  | false => rw [handleAddTicket_notReady env s db hr]; exact h
  | true =>
    by_cases hid : s.formData.repuestoId = ""
    · rw [handleAddTicket_noPart env s db hr hid]
      intro i hi
      rw [persistTicket_inventory] at hi
      exact h i hi
    · cases hfind : s.inventory.find? (fun i => decide (i.id = s.formData.repuestoId)) with
      | none =>
        have hdb : (handleAddTicket env s db).db = db := by
          simp [handleAddTicket, hr, hid, hfind]
        rw [hdb]; exact h
      | some item =>
        by_cases hpos : 0 < item.stock
        · rw [handleAddTicket_inStock env s db item hr hid hfind hpos]
          cases hu : db.updateStock env.decrementOk s.formData.repuestoId (jsSub item.stock 1) with
          | error e => exact h
          | ok db1 =>
            intro i hi
            simp only at hi
            rw [persistTicket_inventory] at hi
            obtain ⟨_, _, rfl⟩ := Gateway.updateStock_ok hu
            simp only [List.mem_map] at hi
            obtain ⟨j, hj, rfl⟩ := hi
            by_cases hji : j.id = s.formData.repuestoId
            · simp only [hji, if_true]
              exact jsSub_one_nonneg item.stock hpos
            · simp only [hji, if_false]
              exact h j hj
        · have hdb : (handleAddTicket env s db).db = db := by
            simp [handleAddTicket, hr, hid, hfind, hpos]
          rw [hdb]; exact h

/-- Every record `handleAddTicket` hands to `addDoc` is the draft with only
`costoRepuesto` replaced. -/
theorem handleAddTicket_addTicket_record (env : Env) (s : AppState) (db : Gateway) (r : FormData)
    (h : Call.addTicket r ∈ (handleAddTicket env s db).calls) :
    ∃ c, r = { s.formData with costoRepuesto := c } := by
  have hp : ∀ (db0 : Gateway) (calls : List Call) (c : ℚ),
      (∀ r0, Call.addTicket r0 ∉ calls) →
      Call.addTicket r ∈ (persistTicket env s db0 calls c).calls →
      r = { s.formData with costoRepuesto := c } := by
    intro db0 calls c hcalls hmem
    cases hc : env.createOk with
    | true =>
      rw [persistTicket_ok env s db0 calls c hc] at hmem
      simp only [List.mem_append, List.mem_singleton, Call.addTicket.injEq] at hmem
      rcases hmem with hmem | hmem
      · exact absurd hmem (hcalls r)
      · exact hmem
    | false =>
      rw [persistTicket_fail env s db0 calls c hc] at hmem
      simp only [List.mem_append, List.mem_singleton, Call.addTicket.injEq] at hmem
      rcases hmem with hmem | hmem
      · exact absurd hmem (hcalls r)
      · exact hmem
  cases hr : s.sessionReady with
  | false => rw [handleAddTicket_notReady env s db hr] at h; simp at h
  | true =>
    by_cases hid : s.formData.repuestoId = ""
    · rw [handleAddTicket_noPart env s db hr hid] at h
      exact ⟨0, hp db [] 0 (by simp) h⟩
    · cases hfind : s.inventory.find? (fun i => decide (i.id = s.formData.repuestoId)) with
      | none => simp [handleAddTicket, hr, hid, hfind] at h
      | some item =>
        by_cases hpos : 0 < item.stock
        · rw [handleAddTicket_inStock env s db item hr hid hfind hpos] at h
          cases hu : db.updateStock env.decrementOk s.formData.repuestoId (jsSub item.stock 1) with
          | error e => rw [hu] at h; simp at h
          | ok db1 =>
            rw [hu] at h
            exact ⟨item.costo, hp db1 _ item.costo (by simp) h⟩
        · simp [handleAddTicket, hr, hid, hfind, hpos] at h

/-- A successful `handleAddTicket` appends exactly one ticket, the draft with
only `costoRepuesto` replaced, and resets the form. -/
theorem handleAddTicket_done_tickets (env : Env) (s : AppState) (db : Gateway)
    (h : (handleAddTicket env s db).outcome = .done) :
    ∃ c, (handleAddTicket env s db).db.tickets =
        db.tickets ++ [Ticket.ofRecord env.newId { s.formData with costoRepuesto := c }] ∧
      (handleAddTicket env s db).app.formData = initialFormData env.now := by
  have hr := handleAddTicket_done_ready env s db h
  by_cases hid : s.formData.repuestoId = ""
  · rw [handleAddTicket_noPart env s db hr hid] at h ⊢
    have hc := persistTicket_done_createOk env s db _ _ h
    rw [persistTicket_ok env s db _ _ hc]
    exact ⟨0, rfl, rfl⟩
  · cases hfind : s.inventory.find? (fun i => decide (i.id = s.formData.repuestoId)) with
    | none => simp [handleAddTicket, hr, hid, hfind] at h
    | some item =>
      by_cases hpos : 0 < item.stock
      · rw [handleAddTicket_inStock env s db item hr hid hfind hpos] at h ⊢
        cases hu : db.updateStock env.decrementOk s.formData.repuestoId (jsSub item.stock 1) with
        | error e => rw [hu] at h; simp at h
        | ok db1 =>
          rw [hu] at h
          simp only [hu]
          have hc := persistTicket_done_createOk env s db1 _ _ h
          rw [persistTicket_ok env s db1 _ _ hc]
          exact ⟨item.costo, by simp [Gateway.tickets_updateStock hu], rfl⟩
      · simp [handleAddTicket, hr, hid, hfind, hpos] at h

/-- After `handleAddTicket` the form holds either the same draft or the reset
value. -/
theorem handleAddTicket_formData (env : Env) (s : AppState) (db : Gateway) :
    (handleAddTicket env s db).app.formData = s.formData ∨
      (handleAddTicket env s db).app.formData = initialFormData env.now := by
  have hp : ∀ (db0 : Gateway) (calls : List Call) (c : ℚ),
      (persistTicket env s db0 calls c).app.formData = s.formData ∨
        (persistTicket env s db0 calls c).app.formData = initialFormData env.now := by
    intro db0 calls c
    cases hc : env.createOk with
    | true => rw [persistTicket_ok env s db0 calls c hc]; exact Or.inr rfl
    | false => rw [persistTicket_fail env s db0 calls c hc]; exact Or.inl rfl
  cases hr : s.sessionReady with
  | false => rw [handleAddTicket_notReady env s db hr]; exact Or.inl rfl
  | true =>
    by_cases hid : s.formData.repuestoId = ""
    · rw [handleAddTicket_noPart env s db hr hid]; exact hp _ _ _
    · cases hfind : s.inventory.find? (fun i => decide (i.id = s.formData.repuestoId)) with
      | none => left; simp [handleAddTicket, hr, hid, hfind]
      | some item =>
        by_cases hpos : 0 < item.stock
        · rw [handleAddTicket_inStock env s db item hr hid hfind hpos]
          cases hu : db.updateStock env.decrementOk s.formData.repuestoId (jsSub item.stock 1) with
          | error e => exact Or.inl rfl
          | ok db1 => exact hp _ _ _
        · left; simp [handleAddTicket, hr, hid, hfind, hpos]

/-- Every draft the ticket form can hold has `estado = 'Pendiente'`. -/
theorem FormReachable.estado_eq {toNumber : String → ℚ} {f : FormData}
    (h : FormReachable toNumber f) : f.estado = "Pendiente" := by
  induction h with
  | mount now => rfl
  | change name value _ hname ih =>
    simp only [ticketFormFields, List.mem_cons, List.mem_singleton, List.not_mem_nil,
      or_false] at hname
    rcases hname with rfl | rfl | rfl | rfl | rfl <;> exact ih
  | submit env s db _ hs ih =>
    rcases handleAddTicket_formData env s db with h | h
    · rw [h, hs]; exact ih
    · rw [h]; rfl

/-! ## Auxiliary facts on the ticket collection -/

/-- After the `estado` of the tickets named `id` is set to `v`, the lookup of
`id` finds `estado = v`. -/
theorem find_map_setEstado (l : List Ticket) (id : String) (v : String)
    (h : l.any (fun t => decide (t.id = id)) = true) :
    ((l.map (fun t => if t.id = id then { t with estado := v } else t)).find?
      (fun t => decide (t.id = id))).map Ticket.estado = some v := by
  induction l with
  | nil => simp at h
  | cons a t ih =>
    by_cases ha : a.id = id
    · simp [List.find?, ha]
    · simp [ha] at h
      simp [List.find?, ha]
      simpa using ih (by simpa using h)

/-- Setting the `estado` of the tickets named `id` does not change whether a
ticket named `id` exists. -/
theorem any_map_setEstado (l : List Ticket) (id : String) (v : String) :
    (l.map (fun t => if t.id = id then { t with estado := v } else t)).any
      (fun t => decide (t.id = id)) = l.any (fun t => decide (t.id = id)) := by
  induction l with
  | nil => rfl
  | cons a t ih =>
    have hid : (if a.id = id then { a with estado := v } else a).id = a.id := by
      split <;> rfl
    simp only [List.map_cons, List.any_cons, hid, ih]

/-- Setting the `estado` of the tickets named `id` to `v` twice is the same as
setting it once. -/
theorem map_setEstado_idem (l : List Ticket) (id : String) (v : String) :
    (l.map (fun t => if t.id = id then { t with estado := v } else t)).map
      (fun t => if t.id = id then { t with estado := v } else t) =
    l.map (fun t => if t.id = id then { t with estado := v } else t) := by
  induction l with
  | nil => rfl
  | cons a t ih =>
    simp only [List.map_cons, ih, List.cons.injEq, and_true]
    by_cases ha : a.id = id
    · simp [ha]
    · simp [ha]

/-- A status write carried by the transport on a ticket the Gateway holds
succeeds. -/
theorem Gateway.updateEstado_eq_ok (id : String) (v : String) (db : Gateway)
    (hany : db.tickets.any (fun t => decide (t.id = id)) = true) :
    db.updateEstado true id v = .ok { db with
              tickets := db.tickets.map
                (fun t => if t.id = id then { t with estado := v } else t) } := by
  unfold Gateway.updateEstado
  simp only [Bool.not_true, Bool.false_eq_true, if_false, hany, if_true]

/-- A status write either fails or replaces the `estado` of the tickets with
that id. -/
theorem Gateway.updateEstado_cases (ok : Bool) (id : String) (v : String) (db : Gateway) :
    (∃ e, db.updateEstado ok id v = .error e) ∨
      (db.tickets.any (fun t => decide (t.id = id)) = true ∧
        db.updateEstado ok id v = .ok { db with
              tickets := db.tickets.map
                (fun t => if t.id = id then { t with estado := v } else t) }) := by
  cases ok with
  | false => left; exact ⟨.writeError, by simp [Gateway.updateEstado]⟩
  | true =>
    by_cases hany : db.tickets.any (fun t => decide (t.id = id)) = true
    · right; exact ⟨hany, Gateway.updateEstado_eq_ok id v db hany⟩
    · left; exact ⟨.notFound, by simp [Gateway.updateEstado, hany]⟩

/-- A delete either fails, and then no ticket has that id if the transport
carried it, or removes the tickets with that id. -/
theorem Gateway.deleteTicket_cases (ok : Bool) (id : String) (db : Gateway) :
    (∃ e, db.deleteTicket ok id = .error e ∧
        (ok = true → db.tickets.any (fun t => decide (t.id = id)) = false)) ∨
      db.deleteTicket ok id =
        .ok { db with tickets := db.tickets.filter (fun t => decide (t.id ≠ id)) } := by
  cases ok with
  | false => left; exact ⟨.writeError, by simp [Gateway.deleteTicket]⟩
  | true =>
    by_cases hany : db.tickets.any (fun t => decide (t.id = id)) = true
    · right; simp only [Gateway.deleteTicket, Bool.not_true, Bool.false_eq_true, if_false, hany,
        if_true]
    · left
      refine ⟨.notFound, ?_, fun _ => by simpa using hany⟩
      simp only [Gateway.deleteTicket, Bool.not_true, Bool.false_eq_true, if_false, hany]

/-- With `userId` or `db` missing, `handleUpdateStatus` returns at its guard. -/
theorem handleUpdateStatus_notReady (env : Env) (ticketId newStatus : String) (s : AppState)
    (db : Gateway) (h : s.sessionReady = false) :
    handleUpdateStatus env ticketId newStatus s db =
      { app := s, db := db, calls := [], log := [], outcome := .notReady } := by
  simp [handleUpdateStatus, h]

/-- Past the guard, `handleUpdateStatus` is the status write and its `catch`
block. -/
theorem handleUpdateStatus_ready (env : Env) (ticketId newStatus : String) (s : AppState)
    (db : Gateway) (h : s.sessionReady = true) :
    handleUpdateStatus env ticketId newStatus s db =
      match db.updateEstado env.updateOk ticketId newStatus with
      | .error e =>
        { app := s, db := db, calls := [Call.updateEstado ticketId newStatus],
          log := ["Error al actualizar el estado del ticket:"], outcome := .failed e }
      | .ok db1 =>
        { app := s, db := db1, calls := [Call.updateEstado ticketId newStatus],
          log := [], outcome := .done } := by
  simp [handleUpdateStatus, h]

/-- With `userId` or `db` missing, `handleDeleteTicket` returns at its guard. -/
theorem handleDeleteTicket_notReady (env : Env) (ticketId : String) (s : AppState)
    (db : Gateway) (h : s.sessionReady = false) :
    handleDeleteTicket env ticketId s db =
      { app := s, db := db, calls := [], log := [], outcome := .notReady } := by
  simp [handleDeleteTicket, h]

/-- Past the guard, `handleDeleteTicket` is the delete and its `catch` block. -/
theorem handleDeleteTicket_ready (env : Env) (ticketId : String) (s : AppState)
    (db : Gateway) (h : s.sessionReady = true) :
    handleDeleteTicket env ticketId s db =
      match db.deleteTicket env.deleteOk ticketId with
      | .error e =>
        { app := s, db := db, calls := [Call.deleteTicket ticketId],
          log := ["Error al eliminar el ticket:"], outcome := .failed e }
      | .ok db1 =>
        { app := s, db := db1, calls := [Call.deleteTicket ticketId],
          log := [], outcome := .done } := by
  simp [handleDeleteTicket, h]

/-! ## Ticket creation -/

/-- C1: when the draft names a part and the inventory mirror either has no item
with that id or has one whose stock is at most 0, `handleAddTicket` issues no
Gateway call at all (no `updateDoc` on the inventory, no `addDoc`), leaves both
collections and the React state as they were, and does not end in success: it
takes the guard or, in a ready session, the "Repuesto sin stock" branch. -/
theorem handleAddTicket_without_stock_writes_nothing (env : Env) (s : AppState) (db : Gateway)
    (hid : s.formData.repuestoId ≠ "")
    (hstock : s.inventory.find? (fun item => decide (item.id = s.formData.repuestoId)) = none ∨
      ∃ item, s.inventory.find? (fun item => decide (item.id = s.formData.repuestoId)) = some item ∧
        item.stock ≤ 0) :
    (handleAddTicket env s db).calls = [] ∧
    (handleAddTicket env s db).db = db ∧
    (handleAddTicket env s db).db.tickets = db.tickets ∧
    (handleAddTicket env s db).db.stocks = db.stocks ∧
    (handleAddTicket env s db).app = s ∧
    (handleAddTicket env s db).outcome ≠ Outcome.done ∧
    (s.sessionReady = true →
      (handleAddTicket env s db).outcome = Outcome.noStock ∧
      (handleAddTicket env s db).log = ["Error: Repuesto sin stock."]) := by
  have key : handleAddTicket env s db =
        { app := s, db := db, calls := [], log := [], outcome := .notReady } ∨
      (s.sessionReady = true ∧ handleAddTicket env s db =
        { app := s, db := db, calls := [], log := ["Error: Repuesto sin stock."],
          outcome := .noStock }) := by
    unfold handleAddTicket
    cases hr : s.sessionReady
    · left; simp
    · right
      refine ⟨rfl, ?_⟩
      rcases hstock with hnone | ⟨item, hsome, hle⟩
      · simp [hid, hnone]
      · have hnot : ¬ item.stock > 0 := not_lt.mpr hle
        simp [hid, hsome, hnot]
  rcases key with h | ⟨hr, h⟩
  · rw [h]
    refine ⟨rfl, rfl, rfl, rfl, rfl, by simp, ?_⟩
    intro hr
    unfold handleAddTicket at h
    simp [hr, hid] at h
    rcases hstock with hnone | ⟨item, hsome, hle⟩
    · simp [hnone] at h
    · have hnot : ¬ item.stock > 0 := not_lt.mpr hle
      simp [hsome, hnot] at h
  · rw [h]
    exact ⟨rfl, rfl, rfl, rfl, rfl, by simp, fun _ => ⟨rfl, rfl⟩⟩

/-- C1 at the exhausted part `p2` of the sample inventory, and at an id the
mirror does not hold. -/
theorem handleAddTicket_without_stock_writes_nothing_witness :
    ((handleAddTicket sampleEnv (sampleState "p2") sampleDb).calls = [] ∧
      (handleAddTicket sampleEnv (sampleState "p2") sampleDb).db = sampleDb ∧
      (handleAddTicket sampleEnv (sampleState "p2") sampleDb).outcome = Outcome.noStock) ∧
    (handleAddTicket sampleEnv (sampleState "zz") sampleDb).calls = [] := by
  have h2 := handleAddTicket_without_stock_writes_nothing sampleEnv (sampleState "p2") sampleDb
    (by decide) (Or.inr ⟨{ id := "p2", nombre := "Bateria", stock := 0, costo := 15 },
      by decide, by decide⟩)
  have hz := handleAddTicket_without_stock_writes_nothing sampleEnv (sampleState "zz") sampleDb
    (by decide) (Or.inl (by decide))
  exact ⟨⟨h2.1, h2.2.1, (h2.2.2.2.2.2.2 (by decide)).1⟩, hz.1⟩

/-- C2, counterexample: the mirror holds the item `p9` with stock
`N = 2 ^ 53 + 2 = 9007199254740994`; `handleAddTicket` succeeds and the Gateway
then holds `p9` with stock `9007199254740992 = N - 2`: the double subtraction
`N - 1` of line 134 is rounded, so the stock is not `N - 1`. -/
theorem handleAddTicket_large_stock_not_decremented_by_one :
    bigStockState.inventory.find? (fun i => decide (i.id = bigStockState.formData.repuestoId)) =
      some bigStockItem ∧
    bigStockItem.stock = 9007199254740994 ∧
    (handleAddTicket sampleEnv bigStockState bigStockDb).outcome = Outcome.done ∧
    (handleAddTicket sampleEnv bigStockState bigStockDb).db.stockOf "p9" =
      some 9007199254740992 ∧
    (handleAddTicket sampleEnv bigStockState bigStockDb).db.stockOf "p9" ≠
      some (bigStockItem.stock - 1) := by
  decide

/-- C2, amended: when the draft names a part that the inventory mirror holds with
stock `N > 0` and unit cost `c`: in a ready session, if the transport carries
both writes and the Gateway holds the item, `handleAddTicket` succeeds; and
whenever it succeeds, the calls issued are the stock write followed by the
`addDoc`, the Gateway holds that item with the stock written, which is the
double nearest to `N - 1` and is exactly `N - 1` for every `N` up to `2 ^ 53`,
and the ticket appended to the collection is the draft with
`costoRepuesto = c`, whatever `costoRepuesto` the draft held. -/
theorem handleAddTicket_success_decrements_and_snapshots (env : Env) (s : AppState)
    (db : Gateway) (item : Item)
    (hid : s.formData.repuestoId ≠ "")
    (hfind : s.inventory.find? (fun i => decide (i.id = s.formData.repuestoId)) = some item)
    (hpos : 0 < item.stock) :
    (s.sessionReady = true → env.decrementOk = true →
      db.inventory.any (fun i => decide (i.id = s.formData.repuestoId)) = true →
      env.createOk = true →
      (handleAddTicket env s db).outcome = Outcome.done) ∧
    ((handleAddTicket env s db).outcome = Outcome.done →
      (handleAddTicket env s db).db.stockOf s.formData.repuestoId =
        some (jsSub item.stock 1) ∧
      (item.stock ≤ 9007199254740992 →
        (handleAddTicket env s db).db.stockOf s.formData.repuestoId = some (item.stock - 1)) ∧
      (handleAddTicket env s db).calls =
        [Call.updateStock s.formData.repuestoId (jsSub item.stock 1),
         Call.addTicket { s.formData with costoRepuesto := item.costo }] ∧
      (handleAddTicket env s db).db.tickets =
        db.tickets ++
          [Ticket.ofRecord env.newId { s.formData with costoRepuesto := item.costo }] ∧
      (Ticket.ofRecord env.newId { s.formData with costoRepuesto := item.costo }).costoRepuesto =
        some item.costo) := by
  constructor
  · intro hready hdec hitem hcreate
    have hu := Gateway.updateStock_eq_ok s.formData.repuestoId (jsSub item.stock 1) db hitem
    rw [handleAddTicket_inStock env s db item hready hid hfind hpos, hdec, hu]
    simp only
    rw [persistTicket_ok env s _ _ _ hcreate]
  · intro hdone
    have hready := handleAddTicket_done_ready env s db hdone
    have heq := handleAddTicket_inStock env s db item hready hid hfind hpos
    rw [heq] at hdone ⊢
    cases hu : db.updateStock env.decrementOk s.formData.repuestoId (jsSub item.stock 1) with
    | error e => rw [hu] at hdone; simp at hdone
    | ok db1 =>
      rw [hu] at hdone
      simp only [hu]
      have hc := persistTicket_done_createOk env s db1 _ _ hdone
      rw [persistTicket_ok env s db1 _ _ hc]
      have hs := Gateway.stockOf_updateStock hu
      have hs2 : Gateway.stockOf
          { db1 with
            tickets := db1.tickets ++
              [Ticket.ofRecord env.newId { s.formData with costoRepuesto := item.costo }] }
          s.formData.repuestoId = some (jsSub item.stock 1) := by
        simpa [Gateway.stockOf] using hs
      refine ⟨hs2, ?_, rfl, ?_, rfl⟩
      · intro hb
        rw [← jsSub_one_exact item.stock hpos hb]
        exact hs2
      · simp [Gateway.tickets_updateStock hu]

/-- C2 amended, on the sample session: the part `p1` has stock 2 and cost 40, the
draft holds `costoRepuesto = 7`; afterwards the stock is 1 and the new ticket
carries cost 40. -/
theorem handleAddTicket_success_decrements_and_snapshots_witness :
    sampleDb.stockOf "p1" = some 2 ∧
    (sampleDraft "p1").costoRepuesto = 7 ∧
    (handleAddTicket sampleEnv (sampleState "p1") sampleDb).db.stockOf "p1" = some 1 ∧
    (handleAddTicket sampleEnv (sampleState "p1") sampleDb).db.tickets =
      sampleDb.tickets ++ [Ticket.ofRecord "t3" { sampleDraft "p1" with costoRepuesto := 40 }] := by
  have h := handleAddTicket_success_decrements_and_snapshots sampleEnv (sampleState "p1") sampleDb
    { id := "p1", nombre := "Pantalla", stock := 2, costo := 40 }
    (by decide) (by decide) (by decide)
  have hdone := h.1 (by decide) rfl (by decide) rfl
  exact ⟨by decide, rfl, (h.2 hdone).2.1 (by decide), (h.2 hdone).2.2.2.1⟩

/-- C3: starting from any inventory collection in which every stock is at least
0, after every finite sequence of `handleAddTicket` submissions (any drafts, any
transport outcomes, accepted or rejected, the mirrors being refreshed from the
collections before each submission) every item's stock is still at least 0. -/
theorem createRun_stock_nonneg (ops : List CreateOp) (s : AppState) (db : Gateway)
    (h : db.stockNonneg) : (createRun ops (s, db)).2.stockNonneg := by
  unfold createRun
  induction ops generalizing s db with
  | nil => exact h
  | cons op rest ih =>
    simp only [List.foldl_cons]
    exact ih _ _ (handleAddTicket_preserves_stockNonneg op.env _ db h)

/-- C3 on the sample inventory: three submissions for the part `p3` (stock 1);
the first is accepted, the next two are refused, and no stock is negative. -/
theorem createRun_stock_nonneg_witness :
    sampleDb.stockNonneg ∧
    (createRun [⟨sampleDraft "p3", sampleEnv⟩, ⟨sampleDraft "p3", sampleEnv⟩,
        ⟨sampleDraft "p3", sampleEnv⟩] (sampleState "", sampleDb)).2.stockNonneg ∧
    (createRun [⟨sampleDraft "p3", sampleEnv⟩, ⟨sampleDraft "p3", sampleEnv⟩,
        ⟨sampleDraft "p3", sampleEnv⟩] (sampleState "", sampleDb)).2.stocks =
      [("p1", 2), ("p2", 0), ("p3", 0)] :=
  have h0 : sampleDb.stockNonneg := by
    intro i hi
    simp [sampleDb, sampleInventory] at hi
    rcases hi with rfl | rfl | rfl <;> decide
  ⟨h0, createRun_stock_nonneg _ (sampleState "") sampleDb h0, by decide⟩

/-- C4: when the draft has no part reference (`repuestoId = ''`),
`handleAddTicket` issues no write on the inventory and leaves the inventory
collection as it was; every record it hands to `addDoc` has `costoRepuesto = 0`;
and in a ready session whose ticket write succeeds the handler succeeds and the
ticket appended to the collection is the draft with `costoRepuesto = 0`,
whatever `costoRepuesto` the draft held. -/
theorem handleAddTicket_without_part_costs_zero (env : Env) (s : AppState) (db : Gateway)
    (hid : s.formData.repuestoId = "") :
    (∀ c ∈ (handleAddTicket env s db).calls, c.isInventoryWrite = false) ∧
    (handleAddTicket env s db).db.inventory = db.inventory ∧
    (∀ r, Call.addTicket r ∈ (handleAddTicket env s db).calls → r.costoRepuesto = 0) ∧
    (s.sessionReady = true → env.createOk = true →
      (handleAddTicket env s db).outcome = Outcome.done ∧
      (handleAddTicket env s db).db.tickets =
        db.tickets ++ [Ticket.ofRecord env.newId { s.formData with costoRepuesto := 0 }] ∧
      (Ticket.ofRecord env.newId { s.formData with costoRepuesto := 0 }).costoRepuesto =
        some 0) := by
  cases hr : s.sessionReady with
  | false =>
    rw [handleAddTicket_notReady env s db hr]
    simp
  | true =>
    rw [handleAddTicket_noPart env s db hr hid]
    cases hc : env.createOk with
    | true =>
      rw [persistTicket_ok env s db [] 0 hc]
      simp [Call.isInventoryWrite, Ticket.ofRecord]
    | false =>
      rw [persistTicket_fail env s db [] 0 hc]
      simp [Call.isInventoryWrite]

/-- C4 on the sample session: the draft holds `costoRepuesto = 7` and no part;
the ticket stored has cost 0 and the stocks are untouched. -/
theorem handleAddTicket_without_part_costs_zero_witness :
    (handleAddTicket sampleEnv (sampleState "") sampleDb).db.inventory = sampleDb.inventory ∧
    (handleAddTicket sampleEnv (sampleState "") sampleDb).db.tickets =
      sampleDb.tickets ++ [Ticket.ofRecord "t3" { sampleDraft "" with costoRepuesto := 0 }] ∧
    (sampleDraft "").costoRepuesto = 7 := by
  have h := handleAddTicket_without_part_costs_zero sampleEnv (sampleState "") sampleDb rfl
  exact ⟨h.2.1, (h.2.2.2 (by decide) rfl).2.1, rfl⟩

/-- C5: for every draft reachable from the mounted form through change events on
the controls of the ticket form (`cliente`, `dispositivo`, `problema`,
`repuestoId`, `precioReparacion`) and through what `handleAddTicket` leaves in
the form, every record `handleAddTicket` hands to `addDoc` has
`estado = 'Pendiente'`, and a successful call appends exactly one ticket, whose
`estado` is `'Pendiente'`. -/
theorem handleAddTicket_persists_pendiente (toNumber : String → ℚ) (env : Env) (s : AppState)
    (db : Gateway) (hreach : FormReachable toNumber s.formData) :
    (∀ r, Call.addTicket r ∈ (handleAddTicket env s db).calls → r.estado = "Pendiente") ∧
    ((handleAddTicket env s db).outcome = Outcome.done →
      ∃ t, (handleAddTicket env s db).db.tickets = db.tickets ++ [t] ∧
        t.estado = "Pendiente") := by
  have hest := FormReachable.estado_eq hreach
  constructor
  · intro r hr
    obtain ⟨c, rfl⟩ := handleAddTicket_addTicket_record env s db r hr
    exact hest
  · intro hdone
    obtain ⟨c, ht, _⟩ := handleAddTicket_done_tickets env s db hdone
    exact ⟨_, ht, hest⟩

/-- C5 on a draft typed into the form: client, part `p1` and price entered, then
submitted; the stored ticket is pending. -/
theorem handleAddTicket_persists_pendiente_witness :
    ∃ t, (handleAddTicket sampleEnv { sampleState "" with formData := typedDraft } sampleDb).db.tickets
        = sampleDb.tickets ++ [t] ∧ t.estado = "Pendiente" :=
  (handleAddTicket_persists_pendiente sampleNumber sampleEnv
    { sampleState "" with formData := typedDraft } sampleDb
    (FormReachable.change Field.precioReparacion "150"
      (FormReachable.change Field.repuestoId "p1"
        (FormReachable.change Field.cliente "Dana"
          (FormReachable.mount "2024-01-01T09:00:00.000Z") (by decide))
        (by decide))
      (by decide))).2 (by decide)

/-- C6: the creation timestamp of a stored ticket is the `fechaCreacion` the draft
already held when `handleAddTicket` was invoked, not the time of the operation.
The form is mounted at 09:00; a first ticket is submitted at 17:45 and stored
with `fechaCreacion` 09:00; the form is reset with the time 17:45; a second
ticket submitted at 18:30 is stored with `fechaCreacion` 17:45. -/
theorem handleAddTicket_fechaCreacion_stale :
    sampleEnv.now = "2024-01-01T17:45:00.000Z" ∧
    (handleAddTicket sampleEnv (sampleState "") sampleDb).outcome = Outcome.done ∧
    (handleAddTicket sampleEnv (sampleState "") sampleDb).db.tickets.map Ticket.fechaCreacion =
      ["2024-01-01T08:00:00.000Z", "2024-01-01T08:30:00.000Z", "2024-01-01T09:00:00.000Z"] ∧
    (handleAddTicket { sampleEnv with now := "2024-01-01T18:30:00.000Z", newId := "t4" }
        (handleAddTicket sampleEnv (sampleState "") sampleDb).app
        (handleAddTicket sampleEnv (sampleState "") sampleDb).db).db.tickets.map
          Ticket.fechaCreacion =
      ["2024-01-01T08:00:00.000Z", "2024-01-01T08:30:00.000Z", "2024-01-01T09:00:00.000Z",
       "2024-01-01T17:45:00.000Z"] := by
  decide

/-- C7: when the draft names a part that passes the stock check (ready session,
mirrored stock `N > 0`), the first Gateway call is the stock write and the only
other call there can be is the `addDoc` that follows it. If the stock write
succeeds and leaves the Gateway `db1`, the calls are exactly the stock write
followed by the `addDoc`, and the `addDoc` acts on `db1`: the ticket is appended
to the collection as the stock write left it. If the stock write fails, it is
the only call issued (no `addDoc`), the handler ends in its `catch` block, and
the ticket collection, the inventory collection and the React state are all
unchanged. -/
theorem handleAddTicket_decrement_before_create (env : Env) (s : AppState) (db : Gateway)
    (item : Item)
    (hready : s.sessionReady = true)
    (hid : s.formData.repuestoId ≠ "")
    (hfind : s.inventory.find? (fun i => decide (i.id = s.formData.repuestoId)) = some item)
    (hpos : 0 < item.stock) :
    ((handleAddTicket env s db).calls =
        [Call.updateStock s.formData.repuestoId (jsSub item.stock 1)] ∨
      (handleAddTicket env s db).calls =
        [Call.updateStock s.formData.repuestoId (jsSub item.stock 1),
         Call.addTicket { s.formData with costoRepuesto := item.costo }]) ∧
    (∀ db1, db.updateStock env.decrementOk s.formData.repuestoId (jsSub item.stock 1) = .ok db1 →
      (handleAddTicket env s db).calls =
        [Call.updateStock s.formData.repuestoId (jsSub item.stock 1),
         Call.addTicket { s.formData with costoRepuesto := item.costo }] ∧
      (handleAddTicket env s db).db.inventory = db1.inventory ∧
      (env.createOk = true →
        (handleAddTicket env s db).outcome = Outcome.done ∧
        (handleAddTicket env s db).db.tickets =
          db1.tickets ++
            [Ticket.ofRecord env.newId { s.formData with costoRepuesto := item.costo }]) ∧
      (env.createOk = false →
        (handleAddTicket env s db).outcome = Outcome.failed GatewayError.writeError ∧
        (handleAddTicket env s db).db = db1)) ∧
    (∀ e, db.updateStock env.decrementOk s.formData.repuestoId (jsSub item.stock 1) = .error e →
      (handleAddTicket env s db).calls =
        [Call.updateStock s.formData.repuestoId (jsSub item.stock 1)] ∧
      (∀ c ∈ (handleAddTicket env s db).calls, c.isTicketCreate = false) ∧
      (handleAddTicket env s db).outcome = Outcome.failed e ∧
      (handleAddTicket env s db).db = db ∧
      (handleAddTicket env s db).db.tickets = db.tickets ∧
      (handleAddTicket env s db).db.inventory = db.inventory ∧
      (handleAddTicket env s db).app = s) := by
  rw [handleAddTicket_inStock env s db item hready hid hfind hpos]
  cases hu : db.updateStock env.decrementOk s.formData.repuestoId (jsSub item.stock 1) with
  | error e0 =>
    refine ⟨Or.inl rfl, fun db1 h1 => by simp at h1, ?_⟩
    intro e he
    injection he with he
    subst he
    simp [Call.isTicketCreate]
  | ok db0 =>
    have hcalls : (persistTicket env s db0
          [Call.updateStock s.formData.repuestoId (jsSub item.stock 1)] item.costo).calls =
        [Call.updateStock s.formData.repuestoId (jsSub item.stock 1),
         Call.addTicket { s.formData with costoRepuesto := item.costo }] := by
      cases hc : env.createOk with
      | true => rw [persistTicket_ok env s db0 _ _ hc]; rfl
      | false => rw [persistTicket_fail env s db0 _ _ hc]; rfl
    refine ⟨Or.inr hcalls, ?_, fun e he => by simp at he⟩
    intro db1 h1
    injection h1 with h1
    subst h1
    refine ⟨hcalls, persistTicket_inventory env s db0 _ _, ?_, ?_⟩
    · intro hc
      simp only
      rw [persistTicket_ok env s db0 _ _ hc]
      exact ⟨rfl, rfl⟩
    · intro hc
      simp only
      rw [persistTicket_fail env s db0 _ _ hc]
      exact ⟨rfl, rfl⟩

/-- C7 on the sample session: with a failing transport for the stock write there
is one call, no ticket, and nothing changed; with a working transport the calls
are the stock write and then the `addDoc`, and the ticket is appended to the
collection that already holds `p1` with stock 1. -/
theorem handleAddTicket_decrement_before_create_witness :
    (handleAddTicket { sampleEnv with decrementOk := false } (sampleState "p1") sampleDb).calls =
      [Call.updateStock "p1" 1] ∧
    (handleAddTicket { sampleEnv with decrementOk := false } (sampleState "p1") sampleDb).db =
      sampleDb ∧
    (handleAddTicket sampleEnv (sampleState "p1") sampleDb).calls =
      [Call.updateStock "p1" 1, Call.addTicket { sampleDraft "p1" with costoRepuesto := 40 }] ∧
    (handleAddTicket sampleEnv (sampleState "p1") sampleDb).db.stocks =
      [("p1", 1), ("p2", 0), ("p3", 1)] ∧
    (handleAddTicket sampleEnv (sampleState "p1") sampleDb).db.tickets.length = 3 := by
  have hf := handleAddTicket_decrement_before_create { sampleEnv with decrementOk := false }
    (sampleState "p1") sampleDb { id := "p1", nombre := "Pantalla", stock := 2, costo := 40 }
    (by decide) (by decide) (by decide) (by decide)
  have hs := handleAddTicket_decrement_before_create sampleEnv
    (sampleState "p1") sampleDb { id := "p1", nombre := "Pantalla", stock := 2, costo := 40 }
    (by decide) (by decide) (by decide) (by decide)
  have h := hf.2.2 GatewayError.writeError rfl
  have hok := hs.2.1 _ (Gateway.updateStock_eq_ok "p1" 1 sampleDb (by decide))
  exact ⟨h.1, h.2.2.2.1, hok.1, by decide, by decide⟩

/-- C8, counterexample: the mirror holds the item `p9` with stock
`N = 2 ^ 53 + 2 = 9007199254740994`; the stock write succeeds and the `addDoc`
fails; the Gateway then holds `p9` with stock `9007199254740992 = N - 2`: the
double subtraction `N - 1` of line 134 is rounded, so the stock is not `N - 1`. -/
theorem handleAddTicket_create_failure_large_stock :
    bigStockItem.stock = 9007199254740994 ∧
    (handleAddTicket { sampleEnv with createOk := false } bigStockState bigStockDb).outcome =
      Outcome.failed GatewayError.writeError ∧
    (handleAddTicket { sampleEnv with createOk := false } bigStockState bigStockDb).calls.length
      = 2 ∧
    (handleAddTicket { sampleEnv with createOk := false } bigStockState bigStockDb).db.tickets
      = [] ∧
    (handleAddTicket { sampleEnv with createOk := false } bigStockState bigStockDb).db.stockOf
      "p9" = some 9007199254740992 ∧
    (handleAddTicket { sampleEnv with createOk := false } bigStockState bigStockDb).db.stockOf
      "p9" ≠ some (bigStockItem.stock - 1) := by
  decide

/-- C8, amended: when the draft names a part with mirrored stock `N > 0`, the stock
write succeeds (the transport carries it and the Gateway holds the item) and
the `addDoc` then fails, the Gateway ends with that item's stock equal to the
stock written, which is the double nearest to `N - 1` and is exactly `N - 1`
for every `N` up to `2 ^ 53`, and with the ticket collection unchanged; the
handler issued exactly the stock write and the `addDoc`, so no write restores
the stock; and the React state, the form draft included, is unchanged. -/
theorem handleAddTicket_create_failure_keeps_decrement (env : Env) (s : AppState) (db : Gateway)
    (item : Item)
    (hready : s.sessionReady = true)
    (hid : s.formData.repuestoId ≠ "")
    (hfind : s.inventory.find? (fun i => decide (i.id = s.formData.repuestoId)) = some item)
    (hpos : 0 < item.stock)
    (hdec : env.decrementOk = true)
    (hitem : db.inventory.any (fun i => decide (i.id = s.formData.repuestoId)) = true)
    (hcreate : env.createOk = false) :
    (handleAddTicket env s db).db.stockOf s.formData.repuestoId = some (jsSub item.stock 1) ∧
    (item.stock ≤ 9007199254740992 →
      (handleAddTicket env s db).db.stockOf s.formData.repuestoId = some (item.stock - 1)) ∧
    (handleAddTicket env s db).db.tickets = db.tickets ∧
    (handleAddTicket env s db).calls =
      [Call.updateStock s.formData.repuestoId (jsSub item.stock 1),
       Call.addTicket { s.formData with costoRepuesto := item.costo }] ∧
    (handleAddTicket env s db).outcome = Outcome.failed GatewayError.writeError ∧
    (handleAddTicket env s db).app = s ∧
    (handleAddTicket env s db).app.formData = s.formData := by
  have hu := Gateway.updateStock_eq_ok s.formData.repuestoId (jsSub item.stock 1) db hitem
  rw [handleAddTicket_inStock env s db item hready hid hfind hpos, hdec, hu]
  simp only
  rw [persistTicket_fail env s _ _ _ hcreate]
  have hs := Gateway.stockOf_updateStock hu
  refine ⟨hs, ?_, rfl, rfl, rfl, rfl, rfl⟩
  intro hb
  rw [← jsSub_one_exact item.stock hpos hb]
  exact hs

/-- C8 amended, on the sample session with a failing transport for `addDoc`: the
part `p1` goes from stock 2 to stock 1, no ticket is stored, the draft stays. -/
theorem handleAddTicket_create_failure_keeps_decrement_witness :
    sampleDb.stockOf "p1" = some 2 ∧
    (handleAddTicket { sampleEnv with createOk := false } (sampleState "p1") sampleDb).db.stockOf
      "p1" = some 1 ∧
    (handleAddTicket { sampleEnv with createOk := false } (sampleState "p1") sampleDb).db.tickets =
      sampleDb.tickets ∧
    (handleAddTicket { sampleEnv with createOk := false } (sampleState "p1") sampleDb).app =
      sampleState "p1" := by
  have h := handleAddTicket_create_failure_keeps_decrement { sampleEnv with createOk := false }
    (sampleState "p1") sampleDb { id := "p1", nombre := "Pantalla", stock := 2, costo := 40 }
    (by decide) (by decide) (by decide) (by decide) rfl (by decide) rfl
  exact ⟨by decide, h.2.1 (by decide), h.2.2.1, h.2.2.2.2.2.1⟩

/-! ## Status changes and deletion -/

/-- C9, counterexample: the ticket `t1` exists with `estado = 'Entregado'`, but
in a session whose `userId` is `null` the call
`handleUpdateStatus('t1', 'Pendiente')` takes the guard, issues no write, and
the ticket keeps `estado = 'Entregado'`; in a ready session whose transport
fails the write is issued, the `catch` block runs, and the ticket keeps
`estado = 'Entregado'` as well. -/
theorem handleUpdateStatus_not_ready_keeps_estado :
    (signedOutState "").userId = none ∧
    sampleDb.estadoOf "t1" = some "Entregado" ∧
    (handleUpdateStatus sampleEnv "t1" "Pendiente" (signedOutState "") sampleDb).calls = [] ∧
    (handleUpdateStatus sampleEnv "t1" "Pendiente" (signedOutState "") sampleDb).db.estadoOf "t1"
      = some "Entregado" ∧
    (handleUpdateStatus sampleEnv "t1" "Pendiente" (signedOutState "") sampleDb).db.estadoOf "t1"
      ≠ some "Pendiente" ∧
    (handleUpdateStatus { sampleEnv with updateOk := false } "t1" "Pendiente" (sampleState "")
      sampleDb).db.estadoOf "t1" = some "Entregado" := by
  decide

/-- C9, amended: `handleUpdateStatus(ticketId, newStatus)` never reads the
current status. In a ready session, when the transport carries the write and
the ticket exists, the handler succeeds, issues exactly the write
`{ estado: newStatus }`, and the ticket's `estado` is `newStatus` afterwards,
whatever it was before. When the session is not ready or the transport fails,
the collections are unchanged. In every case the handler is idempotent:
applying the same `(ticketId, newStatus)` a second time leaves the Gateway and
the React state as the first application left them. -/
theorem handleUpdateStatus_sets_estado_when_written (env : Env) (ticketId newStatus : String)
    (s : AppState) (db : Gateway) :
    (s.sessionReady = true → env.updateOk = true →
      db.tickets.any (fun t => decide (t.id = ticketId)) = true →
      (handleUpdateStatus env ticketId newStatus s db).outcome = Outcome.done ∧
      (handleUpdateStatus env ticketId newStatus s db).calls =
        [Call.updateEstado ticketId newStatus] ∧
      (handleUpdateStatus env ticketId newStatus s db).db.estadoOf ticketId = some newStatus) ∧
    ((s.sessionReady = false ∨ env.updateOk = false) →
      (handleUpdateStatus env ticketId newStatus s db).db = db) ∧
    (handleUpdateStatus env ticketId newStatus
        (handleUpdateStatus env ticketId newStatus s db).app
        (handleUpdateStatus env ticketId newStatus s db).db).db =
      (handleUpdateStatus env ticketId newStatus s db).db ∧
    (handleUpdateStatus env ticketId newStatus
        (handleUpdateStatus env ticketId newStatus s db).app
        (handleUpdateStatus env ticketId newStatus s db).db).app =
      (handleUpdateStatus env ticketId newStatus s db).app := by
  cases hr : s.sessionReady with
  | false =>
    rw [handleUpdateStatus_notReady env ticketId newStatus s db hr]
    simp only [handleUpdateStatus_notReady env ticketId newStatus s db hr]
    simp
  | true =>
    cases hok : env.updateOk with
    | false =>
      have hu : ∀ d : Gateway, d.updateEstado false ticketId newStatus = .error .writeError := by
        intro d; simp [Gateway.updateEstado]
      simp [handleUpdateStatus_ready, hr, hok, hu]
    | true =>
      by_cases hany : db.tickets.any (fun t => decide (t.id = ticketId)) = true
      · have hu := Gateway.updateEstado_eq_ok ticketId newStatus db hany
        have hany2 := (any_map_setEstado db.tickets ticketId newStatus).trans hany
        have hu2 := Gateway.updateEstado_eq_ok ticketId newStatus
          { db with
            tickets := db.tickets.map
              (fun t => if t.id = ticketId then { t with estado := newStatus } else t) }
          hany2
        have hfind := find_map_setEstado db.tickets ticketId newStatus hany
        have h1 := handleUpdateStatus_ready env ticketId newStatus s db hr
        rw [hok, hu] at h1
        simp only at h1
        rw [h1]
        simp only
        have h2 := handleUpdateStatus_ready env ticketId newStatus s
          { db with
            tickets := db.tickets.map
              (fun t => if t.id = ticketId then { t with estado := newStatus } else t) } hr
        rw [hok, hu2] at h2
        simp only [map_setEstado_idem] at h2
        rw [h2]
        exact ⟨fun _ _ _ => ⟨trivial, trivial, hfind⟩, fun h => by simp at h, rfl, rfl⟩
      · have hu : db.updateEstado true ticketId newStatus = .error .notFound := by
          simp [Gateway.updateEstado, hany]
        simp [handleUpdateStatus_ready, hr, hok, hu, hany]

/-- C9 amended, on the sample session: the delivered ticket `t1` goes back to
`'Pendiente'`, and a second application changes nothing. -/
theorem handleUpdateStatus_sets_estado_when_written_witness :
    sampleDb.estadoOf "t1" = some "Entregado" ∧
    (handleUpdateStatus sampleEnv "t1" "Pendiente" (sampleState "") sampleDb).db.estadoOf "t1" =
      some "Pendiente" ∧
    (handleUpdateStatus sampleEnv "t1" "Pendiente"
        (handleUpdateStatus sampleEnv "t1" "Pendiente" (sampleState "") sampleDb).app
        (handleUpdateStatus sampleEnv "t1" "Pendiente" (sampleState "") sampleDb).db).db =
      (handleUpdateStatus sampleEnv "t1" "Pendiente" (sampleState "") sampleDb).db := by
  have h := handleUpdateStatus_sets_estado_when_written sampleEnv "t1" "Pendiente"
    (sampleState "") sampleDb
  exact ⟨by decide, (h.1 (by decide) rfl (by decide)).2.2, h.2.2.1⟩

/-- C10, counterexample: the ticket `t1` is in the collection, but in a session
whose `userId` is `null` the call `handleDeleteTicket('t1')` takes the guard,
issues no write, and the ticket is still in the collection; in a ready session
whose transport fails the delete is issued, the `catch` block runs, and the
ticket is still in the collection as well. -/
theorem handleDeleteTicket_not_ready_keeps_ticket :
    (signedOutState "").userId = none ∧
    sampleTicket.id = "t1" ∧
    sampleTicket ∈ sampleDb.tickets ∧
    (handleDeleteTicket sampleEnv "t1" (signedOutState "") sampleDb).calls = [] ∧
    sampleTicket ∈ (handleDeleteTicket sampleEnv "t1" (signedOutState "") sampleDb).db.tickets ∧
    sampleTicket ∈ (handleDeleteTicket { sampleEnv with deleteOk := false } "t1" (sampleState "")
      sampleDb).db.tickets := by
  decide

/-- C10, amended: in a ready session, when the transport carries the delete, no
ticket with the id `ticketId` is left in the collection after
`handleDeleteTicket(ticketId)`, nor in the mirror the next snapshot gives. In
every state the ticket collection afterwards is either unchanged or the former
one without the tickets of that id, every other ticket is unchanged, the
handler issues no write on the inventory, and the inventory collection, hence
every item's stock, is unchanged (nothing is restored). -/
theorem handleDeleteTicket_removes_when_written (env : Env) (ticketId : String) (s : AppState)
    (db : Gateway) :
    (s.sessionReady = true → env.deleteOk = true →
      (∀ t ∈ (handleDeleteTicket env ticketId s db).db.tickets, t.id ≠ ticketId) ∧
      (∀ t ∈ (onSnapshot (handleDeleteTicket env ticketId s db).db
                (handleDeleteTicket env ticketId s db).app).tickets, t.id ≠ ticketId)) ∧
    ((handleDeleteTicket env ticketId s db).db.tickets = db.tickets ∨
      (handleDeleteTicket env ticketId s db).db.tickets =
        db.tickets.filter (fun t => decide (t.id ≠ ticketId))) ∧
    (handleDeleteTicket env ticketId s db).db.tickets.filter (fun t => decide (t.id ≠ ticketId)) =
      db.tickets.filter (fun t => decide (t.id ≠ ticketId)) ∧
    (∀ c ∈ (handleDeleteTicket env ticketId s db).calls, c.isInventoryWrite = false) ∧
    (handleDeleteTicket env ticketId s db).db.inventory = db.inventory ∧
    (handleDeleteTicket env ticketId s db).db.stocks = db.stocks := by
  cases hr : s.sessionReady with
  | false =>
    rw [handleDeleteTicket_notReady env ticketId s db hr]
    simp
  | true =>
    rw [handleDeleteTicket_ready env ticketId s db hr]
    rcases Gateway.deleteTicket_cases env.deleteOk ticketId db with ⟨e, he, hnone⟩ | hok
    · rw [he]
      refine ⟨?_, Or.inl rfl, rfl, ?_, rfl, rfl⟩
      · intro _ hd
        have hno : ∀ t ∈ db.tickets, t.id ≠ ticketId := by
          have := hnone hd
          simpa using this
        exact ⟨hno, hno⟩
      · simp [Call.isInventoryWrite]
    · rw [hok]
      refine ⟨?_, Or.inr rfl, ?_, ?_, rfl, rfl⟩
      · intro _ _
        have hno : ∀ t ∈ db.tickets.filter (fun t => decide (t.id ≠ ticketId)),
            t.id ≠ ticketId := by
          intro t ht
          simpa using (List.mem_filter.mp ht).2
        exact ⟨hno, hno⟩
      · simp only [List.filter_filter, Bool.and_self]
      · simp [Call.isInventoryWrite]

/-- C10 amended, on the sample session: deleting `t1`, which was created with the
part `p1`, leaves only `t2` and every stock as it was. -/
theorem handleDeleteTicket_removes_when_written_witness :
    sampleTicket.repuestoId = "p1" ∧
    (handleDeleteTicket sampleEnv "t1" (sampleState "") sampleDb).db.tickets = [sampleTicket2] ∧
    (∀ t ∈ (handleDeleteTicket sampleEnv "t1" (sampleState "") sampleDb).db.tickets,
      t.id ≠ "t1") ∧
    (handleDeleteTicket sampleEnv "t1" (sampleState "") sampleDb).db.stocks = sampleDb.stocks := by
  have h := handleDeleteTicket_removes_when_written sampleEnv "t1" (sampleState "") sampleDb
  exact ⟨rfl, by decide, (h.1 (by decide) rfl).1, h.2.2.2.2.2⟩

/-! ## Dashboard statistics -/

/-- The length of a filtered list is the reference count of the statuses the
filter keeps. -/
theorem length_filter_eq_refCount (p : String → Bool) (tickets : List Ticket) :
    (tickets.filter (fun t => p t.estado)).length = refCount p tickets := by
  induction tickets with
  | nil => rfl
  | cons t rest ih =>
    cases hp : p t.estado with
    | true => simp [List.filter_cons, hp, refCount, ih, Nat.add_comm]
    | false => simp [List.filter_cons, hp, refCount, ih]

/-- The reference sum of a list with one more ticket in front. -/
theorem refSum_cons (field : Ticket → Option ℚ) (t : Ticket) (rest : List Ticket) :
    refSum field (t :: rest) = orZero (field t) + refSum field rest := by
  cases hf : field t with
  | none => simp [refSum, orZero, hf]
  | some v => simp [refSum, orZero, hf]

/-- When no partial sum is rounded, the `reduce` of line 237 or 238 started at `a`
is `a` plus the reference sum. -/
theorem foldl_jsAdd_eq_refSum (field : Ticket → Option ℚ) (tickets : List Ticket) (a : ℚ)
    (h : sumsExact field a tickets = true) :
    tickets.foldl (fun acc ticket => jsAdd acc (orZero (field ticket))) a =
      a + refSum field tickets := by
  induction tickets generalizing a with
  | nil => simp [refSum]
  | cons t rest ih =>
    simp only [sumsExact, Bool.and_eq_true, decide_eq_true_eq] at h
    have h1 : jsAdd a (orZero (field t)) = a + orZero (field t) := h.1
    rw [List.foldl_cons, h1, ih _ h.2, refSum_cons, add_assoc]

/-- The reference sum of amounts that are natural numbers is not negative. -/
theorem refSum_nonneg (field : Ticket → Option ℚ) (tickets : List Ticket)
    (hnat : ∀ t ∈ tickets, ∃ n : Nat, orZero (field t) = (n : ℚ)) :
    0 ≤ refSum field tickets := by
  induction tickets with
  | nil => simp [refSum]
  | cons t rest ih =>
    obtain ⟨n, hn⟩ := hnat t (List.mem_cons_self t rest)
    have hrest := ih (fun u hu => hnat u (List.mem_cons_of_mem t hu))
    rw [refSum_cons, hn]
    have : (0 : ℚ) ≤ (n : ℚ) := Nat.cast_nonneg n
    linarith

/-- Amounts that are natural numbers and add up to at most `2 ^ 53` are summed
without any rounding. -/
theorem sumsExact_of_nat (field : Ticket → Option ℚ) (tickets : List Ticket) (a : Nat)
    (hnat : ∀ t ∈ tickets, ∃ n : Nat, orZero (field t) = (n : ℚ))
    (hb : (a : ℚ) + refSum field tickets ≤ 9007199254740992) :
    sumsExact field (a : ℚ) tickets = true := by
  induction tickets generalizing a with
  | nil => rfl
  | cons t rest ih =>
    obtain ⟨n, hn⟩ := hnat t (List.mem_cons_self t rest)
    have hnat2 : ∀ u ∈ rest, ∃ n : Nat, orZero (field u) = (n : ℚ) :=
      fun u hu => hnat u (List.mem_cons_of_mem t hu)
    have hrest := refSum_nonneg field rest hnat2
    rw [refSum_cons, hn] at hb
    have hcast : (a : ℚ) + (n : ℚ) = (((a + n : Nat) : Int) : ℚ) := by push_cast; rfl
    have hle : ((a + n : Nat) : ℚ) ≤ 9007199254740992 := by push_cast; linarith
    have hle2 : a + n ≤ 9007199254740992 := by exact_mod_cast hle
    simp only [sumsExact, Bool.and_eq_true, decide_eq_true_eq, hn]
    constructor
    · rw [hcast]
      exact roundDouble_int_small _ (by simpa using hle2)
    · have hcast2 : (a : ℚ) + (n : ℚ) = ((a + n : Nat) : ℚ) := by push_cast; rfl
      rw [hcast2]
      apply ih (a + n) hnat2
      push_cast
      linarith

/-- C11, counterexample: on three tickets with the repair prices `2 ^ 53`, 1 and 1
the `reduce` of line 238 gives `2 ^ 53` (each addition of 1 is rounded away)
while the sum of the prices is `2 ^ 53 + 2`; and on three tickets with the part
costs 0.1, 0.2 and 0.3 the `reduce` of line 237 gives the double
0.6000000000000001, which is not the sum of the three costs. -/
theorem dashboard_sums_are_rounded :
    totalIngresos bigTickets = 9007199254740992 ∧
    refTotalIngresos bigTickets = 9007199254740994 ∧
    totalIngresos bigTickets ≠ refTotalIngresos bigTickets ∧
    totalRepuestosCost decimalTickets = mkRat 5404319552844596 9007199254740992 ∧
    totalRepuestosCost decimalTickets ≠ refTotalRepuestosCost decimalTickets := by
  decide!

/-- C11, amended: for every ticket list the four counters equal their reference
definitions: `totalTickets` is the number of tickets; `pendingTickets` and
`progressTickets` count the tickets with status `Pendiente` and `En Progreso`;
`finishedTickets` counts those with status `Listo` or `Entregado`.
`totalRepuestosCost` and `totalIngresos` are the sums of `costoRepuesto` and
`precioReparacion` taken from left to right in double arithmetic, a missing
value counting as 0: they equal the exact sums whenever no partial sum is
rounded, in particular when the amounts are natural numbers that add up to at
most `2 ^ 53`. On the list [Pendiente 100/0, En Progreso 50/10,
Entregado 200/20] the values are 3, 1, 1, 1, 350 and 30. -/
theorem dashboard_statistics_eq_reference :
    (∀ tickets : List Ticket,
      totalTickets tickets = refTotalTickets tickets ∧
      pendingTickets tickets = refPendingTickets tickets ∧
      progressTickets tickets = refProgressTickets tickets ∧
      finishedTickets tickets = refFinishedTickets tickets) ∧
    (∀ tickets : List Ticket,
      (sumsExact Ticket.costoRepuesto 0 tickets = true →
        totalRepuestosCost tickets = refTotalRepuestosCost tickets) ∧
      (sumsExact Ticket.precioReparacion 0 tickets = true →
        totalIngresos tickets = refTotalIngresos tickets)) ∧
    (∀ tickets : List Ticket,
      ((∀ t ∈ tickets, ∃ n : Nat, orZero t.costoRepuesto = (n : ℚ)) →
        refTotalRepuestosCost tickets ≤ 9007199254740992 →
        totalRepuestosCost tickets = refTotalRepuestosCost tickets) ∧
      ((∀ t ∈ tickets, ∃ n : Nat, orZero t.precioReparacion = (n : ℚ)) →
        refTotalIngresos tickets ≤ 9007199254740992 →
        totalIngresos tickets = refTotalIngresos tickets)) ∧
    (totalTickets statTickets = 3 ∧ pendingTickets statTickets = 1 ∧
      progressTickets statTickets = 1 ∧ finishedTickets statTickets = 1 ∧
      totalIngresos statTickets = 350 ∧ totalRepuestosCost statTickets = 30) ∧
    totalRepuestosCost [{ statTicket "d" "Listo" 80 0 with costoRepuesto := none }] = 0 := by
  have hexact : ∀ (field : Ticket → Option ℚ) (tickets : List Ticket),
      sumsExact field 0 tickets = true →
      tickets.foldl (fun acc ticket => jsAdd acc (orZero (field ticket))) 0 =
        refSum field tickets := by
    intro field tickets h
    rw [foldl_jsAdd_eq_refSum field tickets 0 h, zero_add]
  have hnat : ∀ (field : Ticket → Option ℚ) (tickets : List Ticket),
      (∀ t ∈ tickets, ∃ n : Nat, orZero (field t) = (n : ℚ)) →
      refSum field tickets ≤ 9007199254740992 →
      tickets.foldl (fun acc ticket => jsAdd acc (orZero (field ticket))) 0 =
        refSum field tickets := by
    intro field tickets h1 h2
    apply hexact
    have h := sumsExact_of_nat field tickets 0 h1 (by simpa using h2)
    simpa using h
  refine ⟨fun tickets => ⟨?_, ?_, ?_, ?_⟩, fun tickets => ⟨?_, ?_⟩, fun tickets => ⟨?_, ?_⟩,
    by decide!, by decide!⟩
  · unfold totalTickets
    induction tickets with
    | nil => rfl
    | cons t rest ih => simp [refTotalTickets, ih]
  · exact length_filter_eq_refCount (fun e => decide (e = "Pendiente")) tickets
  · exact length_filter_eq_refCount (fun e => decide (e = "En Progreso")) tickets
  · have h := length_filter_eq_refCount (fun e => decide (e ∈ ["Listo", "Entregado"])) tickets
    unfold finishedTickets refFinishedTickets
    rw [← h]
    congr 2
    funext t
    simp
  · exact hexact Ticket.costoRepuesto tickets
  · exact hexact Ticket.precioReparacion tickets
  · exact hnat Ticket.costoRepuesto tickets
  · exact hnat Ticket.precioReparacion tickets

/-- C11 amended, on the list of the example: no partial sum is rounded, the sums
are the exact ones, 350 and 30. -/
theorem dashboard_statistics_eq_reference_witness :
    sumsExact Ticket.precioReparacion 0 statTickets = true ∧
    totalIngresos statTickets = refTotalIngresos statTickets ∧
    refTotalIngresos statTickets = 350 ∧
    totalRepuestosCost statTickets = refTotalRepuestosCost statTickets ∧
    refTotalRepuestosCost statTickets = 30 := by
  have h := dashboard_statistics_eq_reference.2.1 statTickets
  exact ⟨by decide!, h.2 (by decide!), by decide!, h.1 (by decide!), by decide!⟩

/-- The three counters on a list with one more ticket in front. -/
theorem counters_cons (t : Ticket) (rest : List Ticket) :
    pendingTickets (t :: rest) =
      (if t.estado = "Pendiente" then 1 else 0) + pendingTickets rest ∧
    progressTickets (t :: rest) =
      (if t.estado = "En Progreso" then 1 else 0) + progressTickets rest ∧
    finishedTickets (t :: rest) =
      (if t.estado = "Listo" ∨ t.estado = "Entregado" then 1 else 0) + finishedTickets rest := by
  unfold pendingTickets progressTickets finishedTickets
  refine ⟨?_, ?_, ?_⟩
  · by_cases h : t.estado = "Pendiente" <;> simp [List.filter_cons, h, Nat.add_comm]
  · by_cases h : t.estado = "En Progreso" <;> simp [List.filter_cons, h, Nat.add_comm]
  · by_cases h : t.estado = "Listo" ∨ t.estado = "Entregado"
    · rw [if_pos h]
      have hb : (decide (t.estado = "Listo") || decide (t.estado = "Entregado")) = true := by
        simpa using h
      simp [List.filter_cons, hb, Nat.add_comm]
    · rw [if_neg h]
      have hb : (decide (t.estado = "Listo") || decide (t.estado = "Entregado")) = false := by
        simpa using h
      simp [List.filter_cons, hb]

/-- A status is counted by at most one counter, and by one exactly when it is one
of the four values of the enumeration. -/
theorem estado_indicators (e : String) :
    (if e = "Pendiente" then 1 else 0) + (if e = "En Progreso" then 1 else 0) +
        (if e = "Listo" ∨ e = "Entregado" then 1 else 0) ≤ 1 ∧
    ((if e = "Pendiente" then 1 else 0) + (if e = "En Progreso" then 1 else 0) +
        (if e = "Listo" ∨ e = "Entregado" then 1 else 0) = 1 ↔ e ∈ estados) := by
  by_cases h1 : e = "Pendiente"
  · subst h1; decide
  · by_cases h2 : e = "En Progreso"
    · subst h2; decide
    · by_cases h3 : e = "Listo"
      · subst h3; decide
      · by_cases h4 : e = "Entregado"
        · subst h4; decide
        · simp [h1, h2, h3, h4, estados]

/-- C17: for every ticket list the three counters add up to at most
`totalTickets`, with equality exactly when every ticket's `estado` is one of
`Pendiente`, `En Progreso`, `Listo`, `Entregado`; and no ticket is counted by
two of the counters. -/
theorem dashboard_counters_partition (tickets : List Ticket) :
    pendingTickets tickets + progressTickets tickets + finishedTickets tickets ≤
      totalTickets tickets ∧
    (pendingTickets tickets + progressTickets tickets + finishedTickets tickets =
      totalTickets tickets ↔ ∀ t ∈ tickets, t.estado ∈ estados) ∧
    (∀ t : Ticket, ¬ (t.estado = "Pendiente" ∧ t.estado = "En Progreso") ∧
      ¬ (t.estado = "Pendiente" ∧ (t.estado = "Listo" ∨ t.estado = "Entregado")) ∧
      ¬ (t.estado = "En Progreso" ∧ (t.estado = "Listo" ∨ t.estado = "Entregado"))) ∧
    (∀ t, t ∈ tickets.filter (fun t => decide (t.estado = "Pendiente")) →
      t ∉ tickets.filter (fun t => decide (t.estado = "En Progreso")) ∧
      t ∉ tickets.filter
        (fun t => decide (t.estado = "Listo") || decide (t.estado = "Entregado"))) ∧
    (∀ t, t ∈ tickets.filter (fun t => decide (t.estado = "En Progreso")) →
      t ∉ tickets.filter
        (fun t => decide (t.estado = "Listo") || decide (t.estado = "Entregado"))) := by
  have hdis : ∀ t : Ticket, ¬ (t.estado = "Pendiente" ∧ t.estado = "En Progreso") ∧
      ¬ (t.estado = "Pendiente" ∧ (t.estado = "Listo" ∨ t.estado = "Entregado")) ∧
      ¬ (t.estado = "En Progreso" ∧ (t.estado = "Listo" ∨ t.estado = "Entregado")) := by
    intro t
    refine ⟨?_, ?_, ?_⟩
    · rintro ⟨h1, h2⟩; rw [h1] at h2; exact absurd h2 (by decide)
    · rintro ⟨h1, h2 | h2⟩ <;> (rw [h1] at h2; exact absurd h2 (by decide))
    · rintro ⟨h1, h2 | h2⟩ <;> (rw [h1] at h2; exact absurd h2 (by decide))
  have hsum : pendingTickets tickets + progressTickets tickets + finishedTickets tickets ≤
        totalTickets tickets ∧
      (pendingTickets tickets + progressTickets tickets + finishedTickets tickets =
        totalTickets tickets ↔ ∀ t ∈ tickets, t.estado ∈ estados) := by
    induction tickets with
    | nil => simp [pendingTickets, progressTickets, finishedTickets, totalTickets]
    | cons t rest ih =>
      obtain ⟨hp, hg, hf⟩ := counters_cons t rest
      obtain ⟨hle, hiff⟩ := estado_indicators t.estado
      obtain ⟨ihle, ihiff⟩ := ih
      have htot : totalTickets (t :: rest) = totalTickets rest + 1 := rfl
      rw [hp, hg, hf, htot]
      constructor
      · omega
      · constructor
        · intro h
          have h1 : (if t.estado = "Pendiente" then 1 else 0) +
              (if t.estado = "En Progreso" then 1 else 0) +
              (if t.estado = "Listo" ∨ t.estado = "Entregado" then 1 else 0) = 1 := by omega
          have h2 : pendingTickets rest + progressTickets rest + finishedTickets rest =
              totalTickets rest := by omega
          intro u hu
          rcases List.mem_cons.mp hu with rfl | hu
          · exact hiff.mp h1
          · exact ihiff.mp h2 u hu
        · intro h
          have h1 := hiff.mpr (h t (List.mem_cons_self t rest))
          have h2 := ihiff.mpr (fun u hu => h u (List.mem_cons_of_mem t hu))
          omega
  refine ⟨hsum.1, hsum.2, hdis, ?_, ?_⟩
  · intro t ht
    have h1 : t.estado = "Pendiente" := by simpa using (List.mem_filter.mp ht).2
    constructor
    · intro h
      have h2 : t.estado = "En Progreso" := by simpa using (List.mem_filter.mp h).2
      exact (hdis t).1 ⟨h1, h2⟩
    · intro h
      have h2 : t.estado = "Listo" ∨ t.estado = "Entregado" := by
        simpa using (List.mem_filter.mp h).2
      exact (hdis t).2.1 ⟨h1, h2⟩
  · intro t ht h
    have h1 : t.estado = "En Progreso" := by simpa using (List.mem_filter.mp ht).2
    have h2 : t.estado = "Listo" ∨ t.estado = "Entregado" := by
      simpa using (List.mem_filter.mp h).2
    exact (hdis t).2.2 ⟨h1, h2⟩

/-! ## History query -/

/-- At the guard (`userId`, `db` or the search term missing) `handleSearchHistory`
returns at once. -/
theorem handleSearchHistory_guard (env : Env) (s : AppState) (db : Gateway)
    (h : s.sessionReady = false ∨ s.historySearchTerm = "") :
    handleSearchHistory env s db =
      { app := s, db := db, calls := [], log := [], outcome := .notReady } := by
  rcases h with h | h <;> simp [handleSearchHistory, h]

/-- Past the guard `handleSearchHistory` is the query and its `catch` block. -/
theorem handleSearchHistory_ready (env : Env) (s : AppState) (db : Gateway)
    (hr : s.sessionReady = true) (hterm : s.historySearchTerm ≠ "") :
    handleSearchHistory env s db =
      match db.queryCliente env.queryOk s.historySearchTerm with
      | .error e =>
        { app := s, db := db, calls := [Call.queryCliente s.historySearchTerm],
          log := ["Error al buscar el historial del cliente:"], outcome := .failed e }
      | .ok historyTickets =>
        { app := { s with clientHistory := historyTickets }, db := db,
          calls := [Call.queryCliente s.historySearchTerm], log := [], outcome := .done } := by
  simp [handleSearchHistory, hr, hterm]

/-- C12, counterexample: the collection holds two tickets of `Alice` and one of
`Bob`, the search term is `Alice` and the previous result is the ticket of
`Bob`; in a session whose `userId` is `null` `handleSearchHistory` takes the
guard and issues no query, and in a ready session whose query fails the `catch`
block runs: in both `clientHistory` still is the previous result, not the two
tickets of `Alice`. -/
theorem handleSearchHistory_not_ready_keeps_result :
    ({ searchState "Alice" with userId := none } : AppState).historySearchTerm = "Alice" ∧
    historyDb.tickets.filter (fun t => decide (t.cliente = "Alice")) =
      [clientTicket "h1" "Alice", clientTicket "h3" "Alice"] ∧
    (handleSearchHistory sampleEnv { searchState "Alice" with userId := none } historyDb).calls
      = [] ∧
    (handleSearchHistory sampleEnv { searchState "Alice" with userId := none }
      historyDb).app.clientHistory = [clientTicket "h2" "Bob"] ∧
    (handleSearchHistory sampleEnv { searchState "Alice" with userId := none }
      historyDb).app.clientHistory ≠ [clientTicket "h1" "Alice", clientTicket "h3" "Alice"] ∧
    (handleSearchHistory { sampleEnv with queryOk := false } (searchState "Alice")
      historyDb).app.clientHistory = [clientTicket "h2" "Bob"] := by
  decide

/-- C12, amended: for every ticket collection and every non-empty search term, in
a ready session whose query succeeds `handleSearchHistory` issues the one query
on `cliente` and sets `clientHistory` to exactly the tickets of the collection
whose `cliente` is the very same string as the term, whatever the previous
result was; when the session is not ready or the query fails, `clientHistory`
keeps the previous result. The collections are never changed. -/
theorem handleSearchHistory_sets_matches_when_read (env : Env) (s : AppState) (db : Gateway)
    (hterm : s.historySearchTerm ≠ "") :
    (s.sessionReady = true → env.queryOk = true →
      (handleSearchHistory env s db).outcome = Outcome.done ∧
      (handleSearchHistory env s db).calls = [Call.queryCliente s.historySearchTerm] ∧
      (handleSearchHistory env s db).app.clientHistory =
        db.tickets.filter (fun t => decide (t.cliente = s.historySearchTerm)) ∧
      (∀ t, t ∈ (handleSearchHistory env s db).app.clientHistory ↔
        t ∈ db.tickets ∧ t.cliente = s.historySearchTerm)) ∧
    ((s.sessionReady = false ∨ env.queryOk = false) →
      (handleSearchHistory env s db).app.clientHistory = s.clientHistory) ∧
    (handleSearchHistory env s db).db = db := by
  cases hr : s.sessionReady with
  | false =>
    rw [handleSearchHistory_guard env s db (Or.inl hr)]
    simp
  | true =>
    rw [handleSearchHistory_ready env s db hr hterm]
    cases hq : env.queryOk with
    | false => simp [Gateway.queryCliente]
    | true => simp [Gateway.queryCliente, List.mem_filter]

/-- C12 amended, on the collection with two tickets of `Alice` and one of `Bob`:
the term `Alice` yields the two tickets of `Alice`, replacing the previous
result, and the term `alice` yields none. -/
theorem handleSearchHistory_sets_matches_when_read_witness :
    (searchState "Alice").clientHistory = [clientTicket "h2" "Bob"] ∧
    (handleSearchHistory sampleEnv (searchState "Alice") historyDb).app.clientHistory =
      [clientTicket "h1" "Alice", clientTicket "h3" "Alice"] ∧
    (handleSearchHistory sampleEnv (searchState "alice") historyDb).app.clientHistory = [] := by
  have hA := (handleSearchHistory_sets_matches_when_read sampleEnv (searchState "Alice") historyDb
    (by decide)).1 (by decide) rfl
  have ha := (handleSearchHistory_sets_matches_when_read sampleEnv (searchState "alice") historyDb
    (by decide)).1 (by decide) rfl
  refine ⟨rfl, ?_, ?_⟩
  · rw [hA.2.2.1]; decide
  · rw [ha.2.2.1]; decide

/-- C13: when the search term is empty `handleSearchHistory` is a no-op: it issues
no query (no Gateway call at all), prints nothing, and leaves the React state,
the previous search result included, and the collections as they were. -/
theorem handleSearchHistory_empty_term_noop (env : Env) (s : AppState) (db : Gateway)
    (hterm : s.historySearchTerm = "") :
    (handleSearchHistory env s db).calls = [] ∧
    (handleSearchHistory env s db).log = [] ∧
    (handleSearchHistory env s db).app = s ∧
    (handleSearchHistory env s db).app.clientHistory = s.clientHistory ∧
    (handleSearchHistory env s db).db = db := by
  rw [handleSearchHistory_guard env s db (Or.inr hterm)]
  exact ⟨rfl, rfl, rfl, rfl, rfl⟩

/-- C13 on the sample: with an empty search box the displayed result, the ticket
of `Bob`, stays. -/
theorem handleSearchHistory_empty_term_noop_witness :
    (handleSearchHistory sampleEnv (searchState "") historyDb).calls = [] ∧
    (handleSearchHistory sampleEnv (searchState "") historyDb).app.clientHistory =
      [clientTicket "h2" "Bob"] := by
  have h := handleSearchHistory_empty_term_noop sampleEnv (searchState "") historyDb rfl
  exact ⟨h.1, h.2.2.2.1⟩

/-! ## Frame properties -/

/-- Setting the `estado` of the tickets named `id` does not change the
`costoRepuesto` found for any id. -/
theorem find_map_setEstado_costo (l : List Ticket) (id id2 : String) (v : String) :
    ((l.map (fun t => if t.id = id then { t with estado := v } else t)).find?
      (fun t => decide (t.id = id2))).map Ticket.costoRepuesto =
    (l.find? (fun t => decide (t.id = id2))).map Ticket.costoRepuesto := by
  induction l with
  | nil => rfl
  | cons a t ih =>
    have hid : (if a.id = id then { a with estado := v } else a).id = a.id := by
      split <;> rfl
    have hco : (if a.id = id then { a with estado := v } else a).costoRepuesto =
        a.costoRepuesto := by
      split <;> rfl
    simp only [List.map_cons, List.find?_cons, hid]
    by_cases h2 : a.id = id2
    · have hd : decide (a.id = id2) = true := by simpa using h2
      simp only [hd, Option.map_some', hco]
    · simp only [h2, decide_False]
      exact ih

/-- The ticket collection after `handleAddTicket` is the former one, or the former
one with one ticket appended. -/
theorem handleAddTicket_tickets (env : Env) (s : AppState) (db : Gateway) :
    (handleAddTicket env s db).db.tickets = db.tickets ∨
      ∃ t, (handleAddTicket env s db).db.tickets = db.tickets ++ [t] := by
  have hp : ∀ (db0 : Gateway) (calls : List Call) (c : ℚ),
      (persistTicket env s db0 calls c).db.tickets = db0.tickets ∨
        ∃ t, (persistTicket env s db0 calls c).db.tickets = db0.tickets ++ [t] := by
    intro db0 calls c
    cases hc : env.createOk with
    | true => rw [persistTicket_ok env s db0 calls c hc]; exact Or.inr ⟨_, rfl⟩
    | false => rw [persistTicket_fail env s db0 calls c hc]; exact Or.inl rfl
  cases hr : s.sessionReady with
  | false => rw [handleAddTicket_notReady env s db hr]; exact Or.inl rfl
  | true =>
    by_cases hid : s.formData.repuestoId = ""
    · rw [handleAddTicket_noPart env s db hr hid]; exact hp _ _ _
    · cases hfind : s.inventory.find? (fun i => decide (i.id = s.formData.repuestoId)) with
      | none => left; simp [handleAddTicket, hr, hid, hfind]
      | some item =>
        by_cases hpos : 0 < item.stock
        · rw [handleAddTicket_inStock env s db item hr hid hfind hpos]
          cases hu : db.updateStock env.decrementOk s.formData.repuestoId (jsSub item.stock 1) with
          | error e => exact Or.inl rfl
          | ok db1 =>
            simp only
            rw [← Gateway.tickets_updateStock hu]
            exact hp _ _ _
        · left; simp [handleAddTicket, hr, hid, hfind, hpos]

/-- The ticket collection after `handleUpdateStatus` is the former one, or the
former one with the `estado` of the tickets of that id replaced. -/
theorem handleUpdateStatus_tickets (env : Env) (ticketId newStatus : String) (s : AppState)
    (db : Gateway) :
    (handleUpdateStatus env ticketId newStatus s db).db.tickets = db.tickets ∨
      (handleUpdateStatus env ticketId newStatus s db).db.tickets =
        db.tickets.map (fun t => if t.id = ticketId then { t with estado := newStatus } else t) := by
  cases hr : s.sessionReady with
  | false => rw [handleUpdateStatus_notReady env ticketId newStatus s db hr]; exact Or.inl rfl
  | true =>
    rw [handleUpdateStatus_ready env ticketId newStatus s db hr]
    rcases Gateway.updateEstado_cases env.updateOk ticketId newStatus db with ⟨e, he⟩ | ⟨_, hok⟩
    · rw [he]; exact Or.inl rfl
    · rw [hok]; exact Or.inr rfl

/-- The inventory handlers never touch the ticket collection. -/
theorem inventory_handlers_tickets (env : Env) (itemId : String) (s : AppState) (db : Gateway) :
    (handleAddInventoryItem env s db).db.tickets = db.tickets ∧
    (handleDeleteInventoryItem env itemId s db).db.tickets = db.tickets := by
  constructor
  · unfold handleAddInventoryItem Gateway.createItem
    cases s.sessionReady <;> cases env.createOk <;> rfl
  · unfold handleDeleteInventoryItem Gateway.deleteItem
    cases s.sessionReady <;> cases env.deleteOk <;>
      cases db.inventory.any (fun i => decide (i.id = itemId)) <;> rfl

/-- One event keeps the `costoRepuesto` of every ticket that exists. -/
theorem postStep_costoRepuestoOf (st : AppState × Gateway) (op : PostOp) (ticketId : String)
    (c : Option ℚ) (h : st.2.costoRepuestoOf ticketId = some c) :
    (postStep st op).2.costoRepuestoOf ticketId = some c := by
  cases op with
  | updateStatus env tid newStatus =>
    simp only [postStep, Gateway.costoRepuestoOf]
    rcases handleUpdateStatus_tickets env tid newStatus st.1 st.2 with hk | hk
    · rw [hk]; exact h
    · rw [hk, find_map_setEstado_costo]; exact h
  | addTicket env draft =>
    simp only [postStep, Gateway.costoRepuestoOf]
    rcases handleAddTicket_tickets env { st.1 with formData := draft } st.2 with hk | ⟨t, hk⟩
    · rw [hk]; exact h
    · rw [hk, List.find?_append]
      unfold Gateway.costoRepuestoOf at h
      cases hf : st.2.tickets.find? (fun t => decide (t.id = ticketId)) with
      | none => rw [hf] at h; simp at h
      | some u => rw [hf] at h; simpa using h
  | addInventoryItem env draft =>
    simp only [postStep, Gateway.costoRepuestoOf]
    rw [(inventory_handlers_tickets env "" { st.1 with inventoryFormData := draft } st.2).1]
    exact h
  | deleteInventoryItem env itemId =>
    simp only [postStep, Gateway.costoRepuestoOf]
    rw [(inventory_handlers_tickets env itemId st.1 st.2).2]
    exact h
  | inventoryChange inventory => exact h
  | snapshot => exact h

/-- C14: a ticket's `costoRepuesto` is fixed once the ticket is stored: for every
ticket the Gateway holds and every finite sequence of status changes (of any
ticket), creations of other tickets, creations and deletions of inventory
items (the referenced one included) and arbitrary changes of the inventory
collection (any new `costo` or `stock`), the Gateway still holds the ticket with
the same `costoRepuesto`, its term `costoRepuesto || 0` in `totalRepuestosCost`
is the same, and so is the value the mirror shows after the next snapshot. -/
theorem postRun_costoRepuesto_unchanged (ops : List PostOp) (s : AppState) (db : Gateway)
    (ticketId : String) (c : Option ℚ) (h : db.costoRepuestoOf ticketId = some c) :
    (postRun ops (s, db)).2.costoRepuestoOf ticketId = some c ∧
    ((postRun ops (s, db)).2.costoRepuestoOf ticketId).map orZero = some (orZero c) ∧
    ((onSnapshot (postRun ops (s, db)).2 (postRun ops (s, db)).1).tickets.find?
      (fun t => decide (t.id = ticketId))).map Ticket.costoRepuesto = some c := by
  have key : (postRun ops (s, db)).2.costoRepuestoOf ticketId = some c := by
    unfold postRun
    generalize hst : (s, db) = st
    have h0 : st.2.costoRepuestoOf ticketId = some c := by rw [← hst]; exact h
    clear hst h
    induction ops generalizing st with
    | nil => exact h0
    | cons op rest ih =>
      simp only [List.foldl_cons]
      exact ih _ (postStep_costoRepuestoOf st op ticketId c h0)
  refine ⟨key, ?_, ?_⟩
  · rw [key]; rfl
  · exact key

/-- Removing the items named `id` does not change what is found for another id. -/
theorem find_filter_other (l : List Item) (id id2 : String) (hne : id2 ≠ id) :
    (l.filter (fun i => decide (i.id ≠ id))).find? (fun i => decide (i.id = id2)) =
      l.find? (fun i => decide (i.id = id2)) := by
  induction l with
  | nil => rfl
  | cons a t ih =>
    by_cases ha : a.id = id
    · have h2 : ¬ a.id = id2 := fun h => hne (h.symm.trans ha)
      have hd : decide (a.id ≠ id) = false := by simpa using ha
      simp only [List.filter_cons, hd, List.find?_cons, h2, decide_False]
      exact ih
    · have hd : decide (a.id ≠ id) = true := by simpa using ha
      simp only [List.filter_cons, hd, if_true, List.find?_cons]
      rw [ih]

/-- After the items named `id` are removed, none is found under `id`. -/
theorem find_filter_same (l : List Item) (id : String) :
    (l.filter (fun i => decide (i.id ≠ id))).find? (fun i => decide (i.id = id)) = none := by
  induction l with
  | nil => rfl
  | cons a t ih =>
    by_cases ha : a.id = id
    · have hd : decide (a.id ≠ id) = false := by simpa using ha
      simp only [List.filter_cons, hd]
      exact ih
    · have hd : decide (a.id ≠ id) = true := by simpa using ha
      simp only [List.filter_cons, hd, if_true, List.find?_cons, ha, decide_False]
      exact ih

/-- The handlers `handleUpdateStatus`, `handleDeleteTicket` and
`handleSearchHistory` never touch the inventory collection. -/
theorem ticket_handlers_inventory (env : Env) (ticketId newStatus : String) (s : AppState)
    (db : Gateway) :
    (handleUpdateStatus env ticketId newStatus s db).db.inventory = db.inventory ∧
    (handleDeleteTicket env ticketId s db).db.inventory = db.inventory ∧
    (handleSearchHistory env s db).db = db := by
  refine ⟨?_, ?_, ?_⟩
  · cases hr : s.sessionReady with
    | false => rw [handleUpdateStatus_notReady env ticketId newStatus s db hr]
    | true =>
      rw [handleUpdateStatus_ready env ticketId newStatus s db hr]
      rcases Gateway.updateEstado_cases env.updateOk ticketId newStatus db with ⟨e, he⟩ | ⟨_, hok⟩
      · rw [he]
      · rw [hok]
  · cases hr : s.sessionReady with
    | false => rw [handleDeleteTicket_notReady env ticketId s db hr]
    | true =>
      rw [handleDeleteTicket_ready env ticketId s db hr]
      rcases Gateway.deleteTicket_cases env.deleteOk ticketId db with ⟨e, he, _⟩ | hok
      · rw [he]
      · rw [hok]
  · unfold handleSearchHistory Gateway.queryCliente
    cases s.sessionReady <;> cases env.queryOk <;>
      cases decide (s.historySearchTerm = "") <;> rfl

/-- The inventory collection after `handleAddInventoryItem` is the former one, or
the former one with one item appended. -/
theorem handleAddInventoryItem_inventory (env : Env) (s : AppState) (db : Gateway) :
    (handleAddInventoryItem env s db).db.inventory = db.inventory ∨
      ∃ i, (handleAddInventoryItem env s db).db.inventory = db.inventory ++ [i] := by
  unfold handleAddInventoryItem Gateway.createItem
  cases s.sessionReady <;> cases env.createOk
  · exact Or.inl rfl
  · exact Or.inl rfl
  · exact Or.inl rfl
  · exact Or.inr ⟨_, rfl⟩

/-- The inventory collection after `handleDeleteInventoryItem` is the former one,
or the former one without the items of that id. -/
theorem handleDeleteInventoryItem_inventory (env : Env) (itemId : String) (s : AppState)
    (db : Gateway) :
    (handleDeleteInventoryItem env itemId s db).db.inventory = db.inventory ∨
      (handleDeleteInventoryItem env itemId s db).db.inventory =
        db.inventory.filter (fun i => decide (i.id ≠ itemId)) := by
  unfold handleDeleteInventoryItem Gateway.deleteItem
  cases s.sessionReady <;> cases env.deleteOk <;>
    cases db.inventory.any (fun i => decide (i.id = itemId))
  all_goals first
    | exact Or.inl rfl
    | exact Or.inr rfl

/-- The stocks after `handleAddTicket` are the former ones except, at most, the
stock of the item the draft names. -/
theorem handleAddTicket_stockOf_other (env : Env) (s : AppState) (db : Gateway) (id : String)
    (hne : id ≠ s.formData.repuestoId) :
    (handleAddTicket env s db).db.stockOf id = db.stockOf id := by
  have hinv : ∀ d : Gateway, d.inventory = db.inventory → d.stockOf id = db.stockOf id := by
    intro d hd
    unfold Gateway.stockOf
    rw [hd]
  cases hr : s.sessionReady with
  | false => rw [handleAddTicket_notReady env s db hr]
  | true =>
    by_cases hid : s.formData.repuestoId = ""
    · rw [handleAddTicket_noPart env s db hr hid]
      exact hinv _ (persistTicket_inventory env s db [] 0)
    · cases hfind : s.inventory.find? (fun i => decide (i.id = s.formData.repuestoId)) with
      | none =>
        have hdb : (handleAddTicket env s db).db = db := by
          simp [handleAddTicket, hr, hid, hfind]
        rw [hdb]
      | some item =>
        by_cases hpos : 0 < item.stock
        · rw [handleAddTicket_inStock env s db item hr hid hfind hpos]
          cases hu : db.updateStock env.decrementOk s.formData.repuestoId (jsSub item.stock 1) with
          | error e => rfl
          | ok db1 =>
            simp only
            have h1 := Gateway.stockOf_updateStock_other hu hne
            rw [← h1]
            unfold Gateway.stockOf
            rw [persistTicket_inventory]
        · have hdb : (handleAddTicket env s db).db = db := by
            simp [handleAddTicket, hr, hid, hfind, hpos]
          rw [hdb]

/-- C15: stock is changed by ticket creation only. `handleUpdateStatus`,
`handleDeleteTicket` and `handleSearchHistory` leave the inventory collection
as it was; `handleAddInventoryItem` leaves the stock of every item that existed
before as it was; `handleDeleteInventoryItem` leaves the stock of every other
item as it was, and the item it names either is gone or has its former stock;
and `handleAddTicket` leaves the stock of every item other than the one its
draft names as it was. -/
theorem stock_changed_only_by_handleAddTicket (env : Env) (ticketId newStatus itemId : String)
    (s : AppState) (db : Gateway) :
    ((handleUpdateStatus env ticketId newStatus s db).db.inventory = db.inventory ∧
      (handleDeleteTicket env ticketId s db).db.inventory = db.inventory ∧
      (handleSearchHistory env s db).db.inventory = db.inventory) ∧
    (∀ id a, db.stockOf id = some a →
      (handleAddInventoryItem env s db).db.stockOf id = some a) ∧
    ((∀ id, id ≠ itemId →
        (handleDeleteInventoryItem env itemId s db).db.stockOf id = db.stockOf id) ∧
      (∀ id a b, db.stockOf id = some a →
        (handleDeleteInventoryItem env itemId s db).db.stockOf id = some b → a = b)) ∧
    (∀ id, id ≠ s.formData.repuestoId →
      (handleAddTicket env s db).db.stockOf id = db.stockOf id) := by
  have hdel : ∀ id, id ≠ itemId →
      (handleDeleteInventoryItem env itemId s db).db.stockOf id = db.stockOf id := by
    intro id hne
    unfold Gateway.stockOf
    rcases handleDeleteInventoryItem_inventory env itemId s db with hk | hk
    · rw [hk]
    · rw [hk, find_filter_other db.inventory itemId id hne]
  refine ⟨?_, ?_, ⟨hdel, ?_⟩, ?_⟩
  · obtain ⟨h1, h2, h3⟩ := ticket_handlers_inventory env ticketId newStatus s db
    exact ⟨h1, h2, by rw [h3]⟩
  · intro id a ha
    unfold Gateway.stockOf at ha ⊢
    rcases handleAddInventoryItem_inventory env s db with hk | ⟨i, hk⟩
    · rw [hk]; exact ha
    · rw [hk, List.find?_append]
      cases hf : db.inventory.find? (fun i => decide (i.id = id)) with
      | none => rw [hf] at ha; simp at ha
      | some u => rw [hf] at ha; simpa using ha
  · intro id a b ha hb
    by_cases hne : id = itemId
    · subst hne
      unfold Gateway.stockOf at ha hb
      rcases handleDeleteInventoryItem_inventory env id s db with hk | hk
      · rw [hk, ha] at hb
        exact Option.some.inj hb
      · rw [hk, find_filter_same] at hb
        simp at hb
    · rw [hdel id hne, ha] at hb
      exact Option.some.inj hb
  · exact fun id hne => handleAddTicket_stockOf_other env s db id hne

/-- C14 on the sample: the ticket `t1` keeps `costoRepuesto = 40` while its status
changes, the part `p1` gets another cost, another ticket is created with it and
the part is deleted. -/
theorem postRun_costoRepuesto_unchanged_witness :
    sampleDb.costoRepuestoOf "t1" = some (some 40) ∧
    (postRun samplePostOps (sampleState "", sampleDb)).2.costoRepuestoOf "t1" = some (some 40) ∧
    (postRun samplePostOps (sampleState "", sampleDb)).2.estadoOf "t1" = some "Listo" ∧
    (postRun samplePostOps (sampleState "", sampleDb)).2.stockOf "p1" = none ∧
    (postRun samplePostOps (sampleState "", sampleDb)).2.tickets.length = 3 :=
  ⟨by decide,
   (postRun_costoRepuesto_unchanged samplePostOps (sampleState "") sampleDb "t1" (some 40)
     (by decide)).1,
   by decide, by decide, by decide⟩

/-- C15 on the sample: a status change, a deletion of a ticket, the addition of an
item and the deletion of the item `p2` leave the stocks of the items that stay
as they were, and a ticket created with `p1` changes the stock of `p1` only. -/
theorem stock_changed_only_by_handleAddTicket_witness :
    sampleDb.stocks = [("p1", 2), ("p2", 0), ("p3", 1)] ∧
    (handleUpdateStatus sampleEnv "t1" "Listo" (sampleState "p1") sampleDb).db.inventory =
      sampleDb.inventory ∧
    (handleDeleteTicket sampleEnv "t1" (sampleState "p1") sampleDb).db.inventory =
      sampleDb.inventory ∧
    (handleAddInventoryItem sampleEnv (sampleState "p1") sampleDb).db.stockOf "p3" = some 1 ∧
    (handleDeleteInventoryItem sampleEnv "p2" (sampleState "p1") sampleDb).db.stockOf "p3" =
      sampleDb.stockOf "p3" ∧
    (handleDeleteInventoryItem sampleEnv "p2" (sampleState "p1") sampleDb).db.stocks =
      [("p1", 2), ("p3", 1)] ∧
    (handleAddTicket sampleEnv (sampleState "p1") sampleDb).db.stockOf "p3" =
      sampleDb.stockOf "p3" ∧
    (handleAddTicket sampleEnv (sampleState "p1") sampleDb).db.stocks =
      [("p1", 1), ("p2", 0), ("p3", 1)] := by
  have h := stock_changed_only_by_handleAddTicket sampleEnv "t1" "Listo" "p2" (sampleState "p1")
    sampleDb
  exact ⟨by decide, h.1.1, h.1.2.1, h.2.1 "p3" 1 (by decide), h.2.2.1.1 "p3" (by decide),
    by decide, h.2.2.2 "p3" (by decide), by decide⟩


/-! ## Two submissions on one stale mirror -/

/-- The `addDoc` step changes neither the inventory nor, when it fails, anything. -/
theorem advanceCreate_spec (env : Env) (s : AppState) (c : ℚ) (db : Gateway) :
    (advanceCreate env s c db).2.1.inventory = db.inventory ∧
    ((advanceCreate env s c db).1 = .returned .done ∧
        (advanceCreate env s c db).2.1.tickets =
          db.tickets ++ [Ticket.ofRecord env.newId { s.formData with costoRepuesto := c }] ∧
        (advanceCreate env s c db).2.2 =
          [(Call.addTicket { s.formData with costoRepuesto := c }, true)] ∨
      (advanceCreate env s c db).1 = .returned (.failed .writeError) ∧
        (advanceCreate env s c db).2.1 = db ∧
        (advanceCreate env s c db).2.2 =
          [(Call.addTicket { s.formData with costoRepuesto := c }, false)]) := by
  unfold advanceCreate Gateway.createTicket
  cases env.createOk
  · exact ⟨rfl, Or.inr ⟨rfl, rfl, rfl⟩⟩
  · exact ⟨rfl, Or.inl ⟨rfl, rfl, rfl⟩⟩

/-- A call of `handleAddTicket` that runs its steps without interruption is
`handleAddTicket`: same outcome, same Gateway, same calls in the same order. -/
theorem advanceAddTicket_alone (env : Env) (s : AppState) (db : Gateway) :
    (advanceAddTicket env s (advanceAddTicket env s .notStarted db).1
        (advanceAddTicket env s .notStarted db).2.1).1 =
      .returned (handleAddTicket env s db).outcome ∧
    (advanceAddTicket env s (advanceAddTicket env s .notStarted db).1
        (advanceAddTicket env s .notStarted db).2.1).2.1 = (handleAddTicket env s db).db ∧
    ((advanceAddTicket env s .notStarted db).2.2 ++
        (advanceAddTicket env s (advanceAddTicket env s .notStarted db).1
          (advanceAddTicket env s .notStarted db).2.1).2.2).map Prod.fst =
      (handleAddTicket env s db).calls := by
  cases hr : s.sessionReady with
  | false =>
    rw [handleAddTicket_notReady env s db hr]
    simp [advanceAddTicket, hr]
  | true =>
    by_cases hid : s.formData.repuestoId = ""
    · rw [handleAddTicket_noPart env s db hr hid]
      cases hc : env.createOk <;>
        simp [advanceAddTicket, advanceCreate, persistTicket, Gateway.createTicket, hr, hid, hc]
    · cases hfind : s.inventory.find? (fun i => decide (i.id = s.formData.repuestoId)) with
      | none => simp [advanceAddTicket, handleAddTicket, hr, hid, hfind]
      | some item =>
        by_cases hpos : 0 < item.stock
        · rw [handleAddTicket_inStock env s db item hr hid hfind hpos]
          cases hu : db.updateStock env.decrementOk s.formData.repuestoId (jsSub item.stock 1) with
          | error e => simp [advanceAddTicket, hr, hid, hfind, hpos, hu]
          | ok db1 =>
            cases hc : env.createOk <;>
              simp [advanceAddTicket, advanceCreate, persistTicket, Gateway.createTicket, hr, hid,
                hfind, hpos, hu, hc]
        · simp [advanceAddTicket, handleAddTicket, hr, hid, hfind, hpos]

/-- Under the schedule that lets the first call finish before the second starts,
the race ends on the Gateway that two consecutive calls of `handleAddTicket`
leave. -/
theorem race_sequential (env1 env2 : Env) (s1 s2 : AppState) (db : Gateway) :
    (race env1 env2 s1 s2 [false, false, true, true] db).db =
      (secondSubmission env1 env2 s1 s2 db).db := by
  have h1 := (advanceAddTicket_alone env1 s1 db).2.1
  have h2 := (advanceAddTicket_alone env2 s2 (handleAddTicket env1 s1 db).db).2.1
  simp only [race, raceStep, List.foldl_cons, List.foldl_nil, Bool.false_eq_true, if_false,
    if_true, secondSubmission]
  rw [h1]
  exact h2

/-- One step of a call that reads a mirror in which the item `rid` has stock 1:
the only inventory write it can issue is `{ stock: 0 }`; the stock the Gateway
holds for `rid` is 0 if that write was carried out in this step and is
unchanged otherwise; a ticket is added exactly when the call succeeds in this
step; and the call gets past its stock write only by having it carried out. -/
theorem advanceAddTicket_stale (env : Env) (s : AppState) (fl : Flight) (db : Gateway)
    (rid : String) (item : Item) (hrid : s.formData.repuestoId = rid) (hne : rid ≠ "")
    (hfind : s.inventory.find? (fun i => decide (i.id = rid)) = some item)
    (hone : item.stock = 1) :
    (∀ p ∈ (advanceAddTicket env s fl db).2.2,
      p.1 = Call.updateStock rid 0 ∨ p.1.isInventoryWrite = false) ∧
    (((Call.updateStock rid 0, true) ∈ (advanceAddTicket env s fl db).2.2 ∧
        (advanceAddTicket env s fl db).2.1.stockOf rid = some 0) ∨
      ((Call.updateStock rid 0, true) ∉ (advanceAddTicket env s fl db).2.2 ∧
        (advanceAddTicket env s fl db).2.1.stockOf rid = db.stockOf rid)) ∧
    (advanceAddTicket env s fl db).2.1.tickets.length + fl.created =
      db.tickets.length + (advanceAddTicket env s fl db).1.created ∧
    ((advanceAddTicket env s fl db).1.pastDecrement = true →
      fl.pastDecrement = true ∨
        (Call.updateStock rid 0, true) ∈ (advanceAddTicket env s fl db).2.2) := by
  have hz : jsSub 1 1 = 0 := by decide
  have hcreate : ∀ c : ℚ,
      (∀ p ∈ (advanceCreate env s c db).2.2,
        p.1 = Call.updateStock rid 0 ∨ p.1.isInventoryWrite = false) ∧
      ((Call.updateStock rid 0, true) ∉ (advanceCreate env s c db).2.2 ∧
        (advanceCreate env s c db).2.1.stockOf rid = db.stockOf rid) ∧
      (advanceCreate env s c db).2.1.tickets.length =
        db.tickets.length + (advanceCreate env s c db).1.created := by
    intro c
    obtain ⟨hinv, hcase⟩ := advanceCreate_spec env s c db
    have hst : (advanceCreate env s c db).2.1.stockOf rid = db.stockOf rid := by
      unfold Gateway.stockOf
      rw [hinv]
    rcases hcase with ⟨h1, h2, h3⟩ | ⟨h1, h2, h3⟩
    · rw [h3, h1, h2] at *
      refine ⟨?_, ⟨?_, hst⟩, ?_⟩
      · intro p hp
        simp only [List.mem_singleton] at hp
        subst hp
        exact Or.inr rfl
      · simp
      · simp [Flight.created]
    · rw [h3, h1] at *
      refine ⟨?_, ⟨?_, hst⟩, ?_⟩
      · intro p hp
        simp only [List.mem_singleton] at hp
        subst hp
        exact Or.inr rfl
      · simp
      · rw [h2]; simp [Flight.created]
  cases fl with
  | notStarted =>
    cases hr : s.sessionReady with
    | false => simp [advanceAddTicket, hr, Flight.created, Flight.pastDecrement]
    | true =>
      have hfind2 : s.inventory.find? (fun i => decide (i.id = s.formData.repuestoId)) =
          some item := by rw [hrid]; exact hfind
      have hid : s.formData.repuestoId ≠ "" := by rw [hrid]; exact hne
      cases hu : db.updateStock env.decrementOk rid 0 with
      | error e =>
        simp [advanceAddTicket, hr, hrid, hne, hfind, hone, hz, hu, Flight.created,
          Flight.pastDecrement]
      | ok db1 =>
        have hs := Gateway.stockOf_updateStock hu
        have ht := Gateway.tickets_updateStock hu
        simp [advanceAddTicket, hr, hrid, hne, hfind, hone, hz, hu, Flight.created,
          Flight.pastDecrement, hs, ht]
  | decremented c =>
    obtain ⟨h1, h2, h3⟩ := hcreate c
    refine ⟨h1, Or.inr h2, ?_, fun _ => Or.inl rfl⟩
    simpa [advanceAddTicket, Flight.created] using h3
  | returned o =>
    simp [advanceAddTicket]

/-- One scheduling decision keeps the invariant of a race on a stale mirror. -/
theorem raceStep_staleInvariant (env1 env2 : Env) (s1 s2 : AppState) (rid : String) (item : Item)
    (h1 : s1.formData.repuestoId = rid) (h2 : s2.formData.repuestoId = rid) (hne : rid ≠ "")
    (hf1 : s1.inventory.find? (fun i => decide (i.id = rid)) = some item)
    (hf2 : s2.inventory.find? (fun i => decide (i.id = rid)) = some item)
    (hone : item.stock = 1) (db0 : Gateway) (r : Race) (second : Bool)
    (hI : r.staleInvariant rid db0) :
    (raceStep env1 env2 s1 s2 r second).staleInvariant rid db0 := by
  obtain ⟨i1, i2, i3, i4, i5, i6⟩ := hI
  cases second with
  | false =>
    obtain ⟨a1, a2, a3, a4⟩ := advanceAddTicket_stale env1 s1 r.first r.db rid item h1 hne hf1 hone
    simp only [raceStep, Bool.false_eq_true, if_false, Race.staleInvariant]
    refine ⟨?_, ?_, ?_, ?_, ?_, ?_⟩
    · intro p hp
      simp only [List.mem_append] at hp
      rcases hp with (hp | hp) | hp
      · exact i1 p (List.mem_append_left _ hp)
      · exact a1 p hp
      · exact i1 p (List.mem_append_right _ hp)
    · intro hp
      rcases a2 with ⟨_, hs⟩ | ⟨hn, hs⟩
      · exact hs
      · rw [hs]
        apply i2
        simp only [List.mem_append] at hp ⊢
        rcases hp with (hp | hp) | hp
        · exact Or.inl hp
        · exact absurd hp hn
        · exact Or.inr hp
    · intro hp
      rcases a2 with ⟨hm, _⟩ | ⟨_, hs⟩
      · exact absurd (by simp only [List.mem_append]; exact Or.inl (Or.inr hm)) hp
      · rw [hs]
        apply i3
        intro hq
        apply hp
        simp only [List.mem_append] at hq ⊢
        rcases hq with hq | hq
        · exact Or.inl (Or.inl hq)
        · exact Or.inr hq
    · omega
    · intro hp
      rcases a4 hp with hq | hq
      · exact List.mem_append_left _ (i5 hq)
      · exact List.mem_append_right _ hq
    · exact i6
  | true =>
    obtain ⟨a1, a2, a3, a4⟩ := advanceAddTicket_stale env2 s2 r.second r.db rid item h2 hne hf2 hone
    simp only [raceStep, if_true, Race.staleInvariant]
    refine ⟨?_, ?_, ?_, ?_, ?_, ?_⟩
    · intro p hp
      simp only [List.mem_append] at hp
      rcases hp with hp | hp | hp
      · exact i1 p (List.mem_append_left _ hp)
      · exact i1 p (List.mem_append_right _ hp)
      · exact a1 p hp
    · intro hp
      rcases a2 with ⟨_, hs⟩ | ⟨hn, hs⟩
      · exact hs
      · rw [hs]
        apply i2
        simp only [List.mem_append] at hp ⊢
        rcases hp with hp | hp | hp
        · exact Or.inl hp
        · exact Or.inr hp
        · exact absurd hp hn
    · intro hp
      rcases a2 with ⟨hm, _⟩ | ⟨_, hs⟩
      · exact absurd (by simp only [List.mem_append]; exact Or.inr (Or.inr hm)) hp
      · rw [hs]
        apply i3
        intro hq
        apply hp
        simp only [List.mem_append] at hq ⊢
        rcases hq with hq | hq
        · exact Or.inl hq
        · exact Or.inr (Or.inl hq)
    · omega
    · exact i5
    · intro hp
      rcases a4 hp with hq | hq
      · exact List.mem_append_left _ (i6 hq)
      · exact List.mem_append_right _ hq

/-- Every race of two calls on a stale mirror keeps the invariant. -/
theorem race_staleInvariant (env1 env2 : Env) (s1 s2 : AppState) (rid : String) (item : Item)
    (h1 : s1.formData.repuestoId = rid) (h2 : s2.formData.repuestoId = rid) (hne : rid ≠ "")
    (hf1 : s1.inventory.find? (fun i => decide (i.id = rid)) = some item)
    (hf2 : s2.inventory.find? (fun i => decide (i.id = rid)) = some item)
    (hone : item.stock = 1) (schedule : List Bool) (db : Gateway) :
    (race env1 env2 s1 s2 schedule db).staleInvariant rid db := by
  have hgen : ∀ (sched : List Bool) (r : Race), r.staleInvariant rid db →
      (sched.foldl (raceStep env1 env2 s1 s2) r).staleInvariant rid db := by
    intro sched
    induction sched with
    | nil => intro r hr; exact hr
    | cons b rest ih =>
      intro r hr
      simp only [List.foldl_cons]
      exact ih _ (raceStep_staleInvariant env1 env2 s1 s2 rid item h1 h2 hne hf1 hf2 hone db r b hr)
  apply hgen
  simp [Race.staleInvariant, Flight.created, Flight.pastDecrement]

/-- Past the stock check on a mirrored stock `N`, `handleAddTicket` first issues
the stock write, issues no other inventory write, leaves the stock
the Gateway holds for the item either as it was or equal to the stock written, and
leaves it equal to the stock written when it succeeds. -/
theorem handleAddTicket_named_stock (env : Env) (s : AppState) (db : Gateway) (item : Item)
    (hready : s.sessionReady = true) (hid : s.formData.repuestoId ≠ "")
    (hfind : s.inventory.find? (fun i => decide (i.id = s.formData.repuestoId)) = some item)
    (hpos : 0 < item.stock) :
    (handleAddTicket env s db).calls.head? =
      some (Call.updateStock s.formData.repuestoId (jsSub item.stock 1)) ∧
    (∀ c ∈ (handleAddTicket env s db).calls, c.isInventoryWrite = true →
      c = Call.updateStock s.formData.repuestoId (jsSub item.stock 1)) ∧
    ((handleAddTicket env s db).db.stockOf s.formData.repuestoId =
        db.stockOf s.formData.repuestoId ∨
      (handleAddTicket env s db).db.stockOf s.formData.repuestoId = some (jsSub item.stock 1)) ∧
    ((handleAddTicket env s db).outcome = Outcome.done →
      (handleAddTicket env s db).db.stockOf s.formData.repuestoId = some (jsSub item.stock 1)) := by
  rw [handleAddTicket_inStock env s db item hready hid hfind hpos]
  cases hu : db.updateStock env.decrementOk s.formData.repuestoId (jsSub item.stock 1) with
  | error e =>
    refine ⟨rfl, ?_, Or.inl rfl, ?_⟩
    · intro c hc _
      simpa using hc
    · intro h; simp at h
  | ok db1 =>
    have hs : db1.stockOf s.formData.repuestoId = some (jsSub item.stock 1) :=
      Gateway.stockOf_updateStock hu
    have hst : ∀ d : Gateway, d.inventory = db1.inventory →
        d.stockOf s.formData.repuestoId = some (jsSub item.stock 1) := by
      intro d hd
      rw [← hs]
      unfold Gateway.stockOf
      rw [hd]
    simp only
    have hinv := persistTicket_inventory env s db1
      [Call.updateStock s.formData.repuestoId (jsSub item.stock 1)] item.costo
    refine ⟨?_, ?_, Or.inr (hst _ hinv), fun _ => hst _ hinv⟩
    · cases hc : env.createOk with
      | true => rw [persistTicket_ok env s db1 _ _ hc]; rfl
      | false => rw [persistTicket_fail env s db1 _ _ hc]; rfl
    · intro c hc hw
      cases hco : env.createOk with
      | true =>
        rw [persistTicket_ok env s db1 _ _ hco] at hc
        simp only [List.mem_append, List.mem_singleton] at hc
        rcases hc with rfl | rfl
        · rfl
        · simp [Call.isInventoryWrite] at hw
      | false =>
        rw [persistTicket_fail env s db1 _ _ hco] at hc
        simp only [List.mem_append, List.mem_singleton] at hc
        rcases hc with rfl | rfl
        · rfl
        · simp [Call.isInventoryWrite] at hw

/-- C16, counterexample: there is no execution, sequential or interleaved, of two
`handleAddTicket` calls on the same item, both reading the same mirror in which
that item has stock 1 and both issuing their stock write, that takes the stock
the Gateway holds for the item from a value that is not negative to a negative
one: each call writes the absolute value `{ stock: 1 - 1 }`. -/
theorem stale_mirror_submissions_never_negative :
    ¬ ∃ (env1 env2 : Env) (s1 s2 : AppState) (db : Gateway) (item : Item)
        (schedule : List Bool) (v : Int),
      s1.formData.repuestoId ≠ "" ∧ s2.formData.repuestoId = s1.formData.repuestoId ∧
      s2.inventory = s1.inventory ∧
      s1.inventory.find? (fun i => decide (i.id = s1.formData.repuestoId)) = some item ∧
      item.stock = 1 ∧
      (∀ u, db.stockOf s1.formData.repuestoId = some u → 0 ≤ u) ∧
      (∃ b, (Call.updateStock s1.formData.repuestoId 0, b) ∈
        (race env1 env2 s1 s2 schedule db).firstCalls) ∧
      (∃ b, (Call.updateStock s1.formData.repuestoId 0, b) ∈
        (race env1 env2 s1 s2 schedule db).secondCalls) ∧
      (race env1 env2 s1 s2 schedule db).db.stockOf s1.formData.repuestoId = some v ∧
      v < 0 := by
  rintro ⟨env1, env2, s1, s2, db, item, schedule, v, hid, hsame, hmirror, hfind, hone, hnonneg,
    _, _, hv, hneg⟩
  have hfind2 : s2.inventory.find? (fun i => decide (i.id = s1.formData.repuestoId)) =
      some item := by rw [hmirror]; exact hfind
  obtain ⟨_, i2, i3, _, _, _⟩ := race_staleInvariant env1 env2 s1 s2 s1.formData.repuestoId item
    rfl hsame hid hfind hfind2 hone schedule db
  by_cases hw : (Call.updateStock s1.formData.repuestoId 0, true) ∈
      (race env1 env2 s1 s2 schedule db).firstCalls ++
        (race env1 env2 s1 s2 schedule db).secondCalls
  · rw [i2 hw] at hv
    have := Option.some.inj hv
    omega
  · rw [i3 hw] at hv
    have := hnonneg v hv
    omega

/-- C16, amended: two `handleAddTicket` calls name the same item and read, in a
ready session, the same mirror in which that item has stock 1. Whatever the
Gateway holds, each passes the check `stock > 0` and issues the absolute stock
write `{ stock: 0 }` as its first call. In every execution, whatever the order
in which the steps of the two calls are interleaved, no other inventory write
is issued; the stock the Gateway holds for the item is 0 as soon as one of the
two stock writes has been carried out, hence after both, and is the initial one
before; and when both calls succeed the stock is 0 and two tickets have been
added: one unit of stock has served two tickets. The schedule that runs the
first call to its end before the second is the composition of two calls of
`handleAddTicket`. -/
theorem stale_mirror_submissions_write_zero (env1 env2 : Env) (s1 s2 : AppState) (db : Gateway)
    (item : Item) (schedule : List Bool)
    (hr1 : s1.sessionReady = true) (hr2 : s2.sessionReady = true)
    (hid : s1.formData.repuestoId ≠ "")
    (hsame : s2.formData.repuestoId = s1.formData.repuestoId)
    (hmirror : s2.inventory = s1.inventory)
    (hfind : s1.inventory.find? (fun i => decide (i.id = s1.formData.repuestoId)) = some item)
    (hone : item.stock = 1) :
    (∀ d : Gateway,
      (handleAddTicket env1 s1 d).calls.head? =
        some (Call.updateStock s1.formData.repuestoId 0) ∧
      (handleAddTicket env2 s2 d).calls.head? =
        some (Call.updateStock s1.formData.repuestoId 0) ∧
      ((advanceAddTicket env1 s1 .notStarted d).2.2).map Prod.fst =
        [Call.updateStock s1.formData.repuestoId 0] ∧
      ((advanceAddTicket env2 s2 .notStarted d).2.2).map Prod.fst =
        [Call.updateStock s1.formData.repuestoId 0]) ∧
    (∀ p ∈ (race env1 env2 s1 s2 schedule db).firstCalls ++
        (race env1 env2 s1 s2 schedule db).secondCalls,
      p.1.isInventoryWrite = true → p.1 = Call.updateStock s1.formData.repuestoId 0) ∧
    (((Call.updateStock s1.formData.repuestoId 0, true) ∈
          (race env1 env2 s1 s2 schedule db).firstCalls ∨
        (Call.updateStock s1.formData.repuestoId 0, true) ∈
          (race env1 env2 s1 s2 schedule db).secondCalls) →
      (race env1 env2 s1 s2 schedule db).db.stockOf s1.formData.repuestoId = some 0) ∧
    (((Call.updateStock s1.formData.repuestoId 0, true) ∉
          (race env1 env2 s1 s2 schedule db).firstCalls ∧
        (Call.updateStock s1.formData.repuestoId 0, true) ∉
          (race env1 env2 s1 s2 schedule db).secondCalls) →
      (race env1 env2 s1 s2 schedule db).db.stockOf s1.formData.repuestoId =
        db.stockOf s1.formData.repuestoId) ∧
    ((race env1 env2 s1 s2 schedule db).first = .returned .done →
      (race env1 env2 s1 s2 schedule db).second = .returned .done →
      (race env1 env2 s1 s2 schedule db).db.stockOf s1.formData.repuestoId = some 0 ∧
      (race env1 env2 s1 s2 schedule db).db.tickets.length = db.tickets.length + 2) ∧
    (race env1 env2 s1 s2 [false, false, true, true] db).db =
      (secondSubmission env1 env2 s1 s2 db).db := by
  have hpos : 0 < item.stock := by omega
  have hz : jsSub item.stock 1 = 0 := by rw [hone]; decide
  have hfind2 : s2.inventory.find? (fun i => decide (i.id = s2.formData.repuestoId)) =
      some item := by rw [hsame, hmirror]; exact hfind
  have hfind2' : s2.inventory.find? (fun i => decide (i.id = s1.formData.repuestoId)) =
      some item := by rw [hmirror]; exact hfind
  have hid2 : s2.formData.repuestoId ≠ "" := by rw [hsame]; exact hid
  obtain ⟨i1, i2, i3, i4, i5, i6⟩ := race_staleInvariant env1 env2 s1 s2 s1.formData.repuestoId
    item rfl hsame hid hfind hfind2' hone schedule db
  refine ⟨?_, ?_, ?_, ?_, ?_, race_sequential env1 env2 s1 s2 db⟩
  · intro d
    have a1 := (handleAddTicket_named_stock env1 s1 d item hr1 hid hfind hpos).1
    have a2 := (handleAddTicket_named_stock env2 s2 d item hr2 hid2 hfind2 hpos).1
    rw [hz] at a1 a2
    rw [hsame] at a2
    refine ⟨a1, a2, ?_, ?_⟩
    · cases hu : d.updateStock env1.decrementOk s1.formData.repuestoId 0 <;>
        simp [advanceAddTicket, hr1, hid, hfind, hpos, hz, hu]
    · rw [← hsame]
      cases hu : d.updateStock env2.decrementOk s2.formData.repuestoId 0 <;>
        simp [advanceAddTicket, hr2, hid2, hfind2, hpos, hz, hu]
  · intro p hp hw
    rcases i1 p hp with h | h
    · exact h
    · rw [h] at hw; exact absurd hw (by decide)
  · intro hw
    apply i2
    simp only [List.mem_append]
    exact hw
  · intro hw
    apply i3
    simp only [List.mem_append, not_or]
    exact hw
  · intro hd1 hd2
    constructor
    · apply i2
      apply List.mem_append_left
      apply i5
      rw [hd1]; rfl
    · rw [i4, hd1, hd2]; rfl

/-- C16 amended, on the sample: two submissions for the part `p3`, both reading
the mirror in which `p3` has stock 1, interleaved as stock write, stock write,
`addDoc`, `addDoc`; both write `{ stock: 0 }`, the Gateway ends with stock 0 for
`p3` and with two more tickets; and the stock is 0 as well when the second
`addDoc` fails. -/
theorem stale_mirror_submissions_write_zero_witness :
    sampleDb.stockOf "p3" = some 1 ∧
    (race sampleEnv { sampleEnv with newId := "t4" } (sampleState "p3") (sampleState "p3")
      [false, true, false, true] sampleDb).firstCalls.map Prod.fst =
        [Call.updateStock "p3" 0, Call.addTicket { sampleDraft "p3" with costoRepuesto := 5 }] ∧
    (race sampleEnv { sampleEnv with newId := "t4" } (sampleState "p3") (sampleState "p3")
      [false, true, false, true] sampleDb).db.stockOf "p3" = some 0 ∧
    (race sampleEnv { sampleEnv with newId := "t4" } (sampleState "p3") (sampleState "p3")
      [false, true, false, true] sampleDb).db.tickets.length = sampleDb.tickets.length + 2 ∧
    (race sampleEnv { sampleEnv with newId := "t4", createOk := false } (sampleState "p3")
      (sampleState "p3") [false, true, false, true] sampleDb).db.stockOf "p3" = some 0 := by
  have h := stale_mirror_submissions_write_zero sampleEnv { sampleEnv with newId := "t4" }
    (sampleState "p3") (sampleState "p3") sampleDb
    { id := "p3", nombre := "Conector", stock := 1, costo := 5 } [false, true, false, true]
    (by decide) (by decide) (by decide) rfl rfl (by decide) rfl
  have h2 := stale_mirror_submissions_write_zero sampleEnv
    { sampleEnv with newId := "t4", createOk := false }
    (sampleState "p3") (sampleState "p3") sampleDb
    { id := "p3", nombre := "Conector", stock := 1, costo := 5 } [false, true, false, true]
    (by decide) (by decide) (by decide) rfl rfl (by decide) rfl
  exact ⟨by decide, by decide, (h.2.2.2.2.1 (by decide) (by decide)).1,
    (h.2.2.2.2.1 (by decide) (by decide)).2, h2.2.2.1 (Or.inl (by decide))⟩

end DigiReparaciones
